import Mathlib

/-!
Shallow embedding of the core scoring components of the pms-platform
repository (apps/ml-service/src/models), together with proofs of the
spec-level properties of those components.

Conventions used throughout:
* Python `dict`s of numeric metrics are modelled as association lists
  `List (String × ℚ)`; `dict.get(k, d)` is `mget m k d` (first binding wins,
  as in a Python dict where keys are unique).
* Machine floats are modelled as exact rationals (`ℚ`); the one place the
  source takes a square root (standard deviations) is modelled over `ℝ`
  (productivity predictor) or carried as the squared quantity (benchmark
  sample variance), as noted at each definition.
* Python `round(x, 2)` is modelled as `pyRound2` (round to nearest
  hundredth); Python rounds exact half-cent ties to even, a float-level
  detail that none of the proved properties touch.
* Raising `ValueError` is modelled with `Except`.
-/

set_option maxHeartbeats 1000000
set_option maxRecDepth 8000

namespace PMS

/-- `metrics.get(key, default)` on a Python dict of numbers. -/
def mget (m : List (String × ℚ)) (k : String) (d : ℚ) : ℚ :=
  match m.lookup k with
  | some v => v
  | none => d

/-- `round(x, 2)`: round to the nearest hundredth. -/
def pyRound2 (q : ℚ) : ℚ := (round (q * 100) : ℤ) / 100

/-! ## PerformanceBenchmarker (performance_benchmarker.py)

A pandas cell is either a number, a (categorical) string, or missing.
Segment-filter values are categorical strings, per the data model
(`{role: "Engineer"}`). -/

inductive Cell where
  | num (q : ℚ)
  | str (s : String)
  | na
deriving DecidableEq

/-- A data frame: column names plus rows given as association lists. -/
structure DataFrame where
  cols : List String
  rows : List (List (String × Cell))

/-- Reading a cell of a row; absent keys read as missing. -/
def cellGet (row : List (String × Cell)) (k : String) : Cell :=
  match row.lookup k with
  | some c => c
  | none => .na

/-- Pandas `data[key] == value` for a categorical string `value`:
missing cells and numeric cells compare unequal to a string. -/
def cellEqStr : Cell → String → Bool
  | .str s, v => s = v
  | _, _ => false

/-- The boolean mask of `create_benchmark`: one conjunct per segment pair,
pairs whose key is not a column are skipped (`if key in data.columns`).
An empty segment dict is falsy in Python, so no filtering happens; `all`
on `[]` is `true`, which agrees with that. -/
def segMatch (cols : List String) (seg : List (String × String))
    (row : List (String × Cell)) : Bool :=
  seg.all fun kv => if cols.contains kv.1 then cellEqStr (cellGet row kv.1) kv.2 else true

/-- `data[mask]`: the segment-filtered rows. -/
def filterSegment (df : DataFrame) (seg : List (String × String)) :
    List (List (String × Cell)) :=
  df.rows.filter (segMatch df.cols seg)

/-- `segmented_data[metric_name].dropna()` for a numeric column: the list of
non-missing numeric values of the metric. -/
def metricValues (rows : List (List (String × Cell))) (metric : String) : List ℚ :=
  rows.filterMap fun row =>
    match cellGet row metric with
    | .num q => some q
    | _ => none

/-- A cell is a number or missing (not a categorical string). -/
def isNumOrNa : Cell → Bool
  | .num _ => true
  | .na => true
  | .str _ => false

/-- The metric column holds only numbers or missing values (the typed
contract under which `np.percentile` is defined). -/
def numericColumn (df : DataFrame) (metric : String) : Prop :=
  ∀ row ∈ df.rows, isNumOrNa (cellGet row metric) = true

instance (df : DataFrame) (metric : String) : Decidable (numericColumn df metric) := by
  unfold numericColumn; infer_instance

/-- The number of non-missing cells of a column. -/
def nonMissingCount (rows : List (List (String × Cell))) (metric : String) : ℕ :=
  (rows.filter fun row => !(cellGet row metric == Cell.na)).length

/-- Least element of a series (pandas `Series.min()`); junk `0` on `[]`,
which `create_benchmark` never reaches (sample size ≥ 10). -/
def seriesMin : List ℚ → ℚ
  | [] => 0
  | x :: xs => xs.foldl min x

/-- Greatest element of a series (pandas `Series.max()`). -/
def seriesMax : List ℚ → ℚ
  | [] => 0
  | x :: xs => xs.foldl max x

/-- Mean of a series. -/
def seriesMean (l : List ℚ) : ℚ := l.sum / l.length

/-- The square of pandas `Series.std()` (sample variance, `ddof = 1`).
The source stores the standard deviation itself; its square is carried
here because the square root of a rational is irrational in general and
no verified property depends on the standard deviation's value. -/
def sampleVariance (l : List ℚ) : ℚ :=
  (l.map fun x => (x - seriesMean l) ^ 2).sum / (l.length - 1)

/-- The sorted copy of the values that `np.percentile` works on. -/
def sortedQ (l : List ℚ) : List ℚ := l.insertionSort (· ≤ ·)

/-- Index into a sorted list, clamped to the last position (`a[i]` for the
in-range indices `np.percentile` produces; the clamp only matters at the
top index, where the interpolation weight is zero). -/
def nthC (l : List ℚ) (i : ℕ) : ℚ := l.getD (min i (l.length - 1)) 0

/-- Linear interpolation `a[⌊h⌋] + (h−⌊h⌋)·(a[⌊h⌋+1]−a[⌊h⌋])` at virtual
index `h` into the sorted values. -/
def interpAt (s : List ℚ) (h : ℚ) : ℚ :=
  nthC s ⌊h⌋.toNat + (h - (⌊h⌋.toNat : ℚ)) * (nthC s (⌊h⌋.toNat + 1) - nthC s ⌊h⌋.toNat)

/-- `np.percentile(values, q)` with the default linear interpolation:
virtual index `h = q·(n−1)/100` into the sorted values. -/
def npPercentile (l : List ℚ) (q : ℚ) : ℚ :=
  interpAt (sortedQ l) (q * (((sortedQ l).length - 1 : ℕ) : ℚ) / 100)

/-- The stored benchmark record. -/
structure Benchmark where
  metric_name : String
  segment : List (String × String)
  sample_size : ℕ
  percentile_25 : ℚ
  percentile_50 : ℚ
  percentile_75 : ℚ
  percentile_90 : ℚ
  mean : ℚ
  sample_variance : ℚ
  min_value : ℚ
  max_value : ℚ
  data_points : ℕ
deriving DecidableEq

inductive BenchError where
  | noData              -- "No data available for specified segment"
  | insufficientData    -- "Insufficient data points (...) for reliable benchmark"
  | keyError            -- pandas KeyError: metric column absent
  | benchmarkNotFound   -- "Benchmark not found for ..."
deriving DecidableEq

/-- The pure computation inside `create_benchmark`: filter, validate,
compute the summary statistics. -/
def computeBenchmark (df : DataFrame) (metric : String)
    (seg : List (String × String)) : Except BenchError Benchmark :=
  let segmented := filterSegment df seg
  if segmented.length = 0 then .error .noData
  else if ¬ df.cols.contains metric then .error .keyError
  else
    let vals := metricValues segmented metric
    if vals.length < 10 then .error .insufficientData
    else .ok {
      metric_name := metric
      segment := seg
      sample_size := vals.length
      percentile_25 := npPercentile vals 25
      percentile_50 := npPercentile vals 50
      percentile_75 := npPercentile vals 75
      percentile_90 := npPercentile vals 90
      mean := seriesMean vals
      sample_variance := sampleVariance vals
      min_value := seriesMin vals
      max_value := seriesMax vals
      data_points := segmented.length }

/-- Ordering on segment items, as Python `sorted` orders `(key, value)`
tuples: lexicographic. -/
def segItemLE (a b : String × String) : Prop :=
  a.1 < b.1 ∨ (a.1 = b.1 ∧ a.2 ≤ b.2)

instance : DecidableRel segItemLE := fun a b => by
  unfold segItemLE; infer_instance

instance : IsTotal (String × String) segItemLE := by
  constructor
  intro a b
  rcases lt_trichotomy a.1 b.1 with h | h | h
  · exact Or.inl (Or.inl h)
  · rcases le_total a.2 b.2 with h2 | h2
    · exact Or.inl (Or.inr ⟨h, h2⟩)
    · exact Or.inr (Or.inr ⟨h.symm, h2⟩)
  · exact Or.inr (Or.inl h)

instance : IsTrans (String × String) segItemLE := by
  constructor
  rintro a b c (h1 | ⟨h1, h1'⟩) (h2 | ⟨h2, h2'⟩)
  · exact Or.inl (h1.trans h2)
  · exact Or.inl (h2 ▸ h1)
  · exact Or.inl (h1 ▸ h2)
  · exact Or.inr ⟨h1.trans h2, h1'.trans h2'⟩

instance : IsAntisymm (String × String) segItemLE := by
  constructor
  rintro ⟨a1, a2⟩ ⟨b1, b2⟩ (h1 | ⟨h1, h1'⟩) (h2 | ⟨h2, h2'⟩)
  · exact absurd (h1.trans h2) (lt_irrefl _)
  · exact absurd h1 (h2 ▸ lt_irrefl _)
  · exact absurd h2 (h1 ▸ lt_irrefl _)
  · cases h1; cases le_antisymm h1' h2'; rfl

/-- `_get_benchmark_key`: metric name alone for an empty segment, else the
metric name joined with the `k:v` renderings of the segment items in
sorted order. -/
def getBenchmarkKey (metric : String) (seg : List (String × String)) : String :=
  match seg with
  | [] => metric
  | _ =>
    let sortedSeg := seg.insertionSort segItemLE
    let segStr := String.intercalate "_" (sortedSeg.map fun kv => kv.1 ++ ":" ++ kv.2)
    metric ++ "_" ++ segStr

/-- The benchmark store (`self.benchmarks`); dict assignment is modelled by
consing, dict lookup by first match. -/
def Store := List (String × Benchmark)

/-- `create_benchmark`: compute, then store under the canonical key. -/
def createBenchmark (st : Store) (df : DataFrame) (metric : String)
    (seg : List (String × String)) : Except BenchError (Benchmark × Store) :=
  match computeBenchmark df metric seg with
  | .error e => .error e
  | .ok b => .ok (b, (getBenchmarkKey metric seg, b) :: st)

/-- `get_benchmark`. -/
def getBenchmark (st : Store) (metric : String) (seg : List (String × String)) :
    Option Benchmark :=
  List.lookup (getBenchmarkKey metric seg) st

/-- `_calculate_percentile_rank`, branch for branch.  (Rational division by
zero yields 0 in Lean; every interpolation branch below is reached only
when its denominator is positive, given the stored breakpoint ordering,
so this convention is never exercised by a stored benchmark.) -/
def calcPercentileRank (b : Benchmark) (value : ℚ) : ℚ :=
  if value ≤ b.percentile_25 then
    if value ≤ b.min_value then 0
    else 25 * (value - b.min_value) / (b.percentile_25 - b.min_value)
  else if value ≤ b.percentile_50 then
    25 + 25 * (value - b.percentile_25) / (b.percentile_50 - b.percentile_25)
  else if value ≤ b.percentile_75 then
    50 + 25 * (value - b.percentile_50) / (b.percentile_75 - b.percentile_50)
  else if value ≤ b.percentile_90 then
    75 + 15 * (value - b.percentile_75) / (b.percentile_90 - b.percentile_75)
  else
    if value ≥ b.max_value then 100
    else 90 + 10 * (value - b.percentile_90) / (b.max_value - b.percentile_90)

/-- `_classify_performance_level`. -/
def classifyPerformanceLevel (rank : ℚ) : String :=
  if rank ≥ 90 then "EXCEPTIONAL"
  else if rank ≥ 75 then "ABOVE"
  else if rank ≥ 25 then "AT"
  else "BELOW"

/-- `_get_relative_position`. -/
def getRelativePosition (rank : ℚ) : String :=
  if rank ≥ 90 then "TOP_10"
  else if rank ≥ 75 then "TOP_25"
  else if rank ≥ 25 then "MIDDLE_50"
  else if rank ≥ 10 then "BOTTOM_25"
  else "BOTTOM_10"

/-- The numeric and categorical fields of the comparison result.  The
insight/recommendation string lists (`_generate_insights`,
`_generate_recommendations`) and the z-score (which divides by the stored
irrational standard deviation) are presentation fields no verified
property depends on, and are not carried. -/
structure Comparison where
  user_value : ℚ
  benchmark_value : ℚ
  percentile_rank : ℚ
  deviation_from_mean : ℚ
  performance_level : String
  relative_position : String
deriving DecidableEq

/-- The result `compare_to_benchmark` builds once the benchmark is found
(levels are classified from the unrounded rank, returned fields are
rounded to two decimals, as in the source). -/
def mkComparison (b : Benchmark) (value : ℚ) : Comparison :=
  let rank := calcPercentileRank b value
  { user_value := pyRound2 value
    benchmark_value := pyRound2 b.percentile_50
    percentile_rank := pyRound2 rank
    deviation_from_mean := pyRound2 (value - b.mean)
    performance_level := classifyPerformanceLevel rank
    relative_position := getRelativePosition rank }

/-- `compare_to_benchmark`. -/
def compareToBenchmark (st : Store) (value : ℚ) (metric : String)
    (seg : List (String × String)) : Except BenchError Comparison :=
  match List.lookup (getBenchmarkKey metric seg) st with
  | none => .error .benchmarkNotFound
  | some b => .ok (mkComparison b value)

/-! ## AnomalyDetector (anomaly_detector.py)

Claims concern fitted detectors, so the fitted scikit-learn / pyod model
and the fitted scaler are abstract functions; every rule-based part of
`detect` is embedded concretely. -/

/-- `_extract_features`, as a record in source order. -/
structure ADFeatures where
  productivity_score : ℚ
  engagement_score : ℚ
  sentiment_score : ℚ
  hours_worked : ℚ
  tasks_completed : ℚ
  meeting_hours : ℚ
  response_time : ℚ
  collaboration_score : ℚ
  code_quality : ℚ
  bug_rate : ℚ
deriving DecidableEq

def extractFeaturesAD (metrics : List (String × ℚ)) : ADFeatures :=
  { productivity_score := mget metrics "productivity_score" 50
    engagement_score := mget metrics "engagement_score" 50
    sentiment_score := mget metrics "sentiment_score" 0
    hours_worked := mget metrics "hours_worked" 40
    tasks_completed := mget metrics "tasks_completed" 0
    meeting_hours := mget metrics "meeting_hours" 0
    response_time := mget metrics "avg_response_time_hours" 4
    collaboration_score := mget metrics "collaboration_score" 50
    code_quality := mget metrics "code_quality_score" 70
    bug_rate := mget metrics "bug_rate" 0 }

/-- `list(features.values())`, in source order. -/
def ADFeatures.toList (f : ADFeatures) : List ℚ :=
  [f.productivity_score, f.engagement_score, f.sentiment_score, f.hours_worked,
   f.tasks_completed, f.meeting_hours, f.response_time, f.collaboration_score,
   f.code_quality, f.bug_rate]

/-- The seven rule predicates of `_classify_anomaly_type`. -/
def burnoutCond (f : ADFeatures) : Prop :=
  f.hours_worked > 55 ∧ f.productivity_score < 40 ∧ f.sentiment_score < -(3/10)

def disengagementCond (metrics : List (String × ℚ)) (f : ADFeatures) : Prop :=
  f.engagement_score < 30 ∧ f.response_time > 24 ∧
    mget metrics "meeting_attendance_rate" 1 < 1/2

def performanceDeclineCond (metrics : List (String × ℚ)) (f : ADFeatures) : Prop :=
  f.productivity_score < 40 ∧ mget metrics "productivity_trend_30d" 0 < -10

def overworkCond (f : ADFeatures) : Prop :=
  f.hours_worked > 60 ∨ f.meeting_hours > 30

def qualityDeclineCond (f : ADFeatures) : Prop :=
  f.bug_rate > 3/20 ∨ f.code_quality < 50

def socialWithdrawalCond (metrics : List (String × ℚ)) (f : ADFeatures) : Prop :=
  f.collaboration_score < 30 ∧ mget metrics "communication_frequency" 0 < 10

def negativeSentimentCond (metrics : List (String × ℚ)) (f : ADFeatures) : Prop :=
  f.sentiment_score < -(1/2) ∨ mget metrics "sentiment_trend_30d" 0 < -(3/10)

instance (f : ADFeatures) : Decidable (burnoutCond f) := by
  unfold burnoutCond; infer_instance
instance (m : List (String × ℚ)) (f : ADFeatures) : Decidable (disengagementCond m f) := by
  unfold disengagementCond; infer_instance
instance (m : List (String × ℚ)) (f : ADFeatures) : Decidable (performanceDeclineCond m f) := by
  unfold performanceDeclineCond; infer_instance
instance (f : ADFeatures) : Decidable (overworkCond f) := by
  unfold overworkCond; infer_instance
instance (f : ADFeatures) : Decidable (qualityDeclineCond f) := by
  unfold qualityDeclineCond; infer_instance
instance (m : List (String × ℚ)) (f : ADFeatures) : Decidable (socialWithdrawalCond m f) := by
  unfold socialWithdrawalCond; infer_instance
instance (m : List (String × ℚ)) (f : ADFeatures) : Decidable (negativeSentimentCond m f) := by
  unfold negativeSentimentCond; infer_instance

/-- `_classify_anomaly_type`: OR of the independent rule predicates,
catch-all tag when none fires. -/
def classifyAnomalyType (metrics : List (String × ℚ)) (f : ADFeatures) : List String :=
  let anomalies :=
    (if burnoutCond f then ["BURNOUT"] else []) ++
    (if disengagementCond metrics f then ["DISENGAGEMENT"] else []) ++
    (if performanceDeclineCond metrics f then ["PERFORMANCE_DECLINE"] else []) ++
    (if overworkCond f then ["OVERWORK"] else []) ++
    (if qualityDeclineCond f then ["QUALITY_DECLINE"] else []) ++
    (if socialWithdrawalCond metrics f then ["SOCIAL_WITHDRAWAL"] else []) ++
    (if negativeSentimentCond metrics f then ["NEGATIVE_SENTIMENT_SPIKE"] else [])
  if anomalies = [] then ["GENERAL_ANOMALY"] else anomalies

/-- The fixed critical-type set of `_assess_severity`. -/
def severityCriticalTypes : List String :=
  ["BURNOUT", "SEVERE_DISENGAGEMENT", "MENTAL_HEALTH_CONCERN"]

/-- `_assess_severity`: four fixed score bands, then escalation to
CRITICAL when any tag is in the critical-type set. -/
def assessSeverity (score : ℚ) (types : List String) : String :=
  let base :=
    if score > 80 then "CRITICAL"
    else if score > 60 then "HIGH"
    else if score > 40 then "MEDIUM"
    else "LOW"
  if types.any fun t => severityCriticalTypes.contains t then "CRITICAL" else base

/-- `_get_risk_level`. -/
def getRiskLevel (score : ℚ) (types : List String) : String :=
  if score > 80 ∨ types.contains "BURNOUT" then "CRITICAL"
  else if score > 60 then "HIGH"
  else if score > 40 then "MEDIUM"
  else "LOW"

/-- `_assess_urgency`. -/
def assessUrgency (severity : String) (types : List String) : String :=
  let criticalTypes := ["BURNOUT", "MENTAL_HEALTH_CONCERN"]
  if severity = "CRITICAL" ∨ types.any (fun t => criticalTypes.contains t) then "IMMEDIATE"
  else if severity = "HIGH" then "SOON"
  else "MONITOR"

/-- A fitted detection model: the scikit-learn / pyod estimator interface
`detect` consumes, abstracted as functions of the scaled feature vector. -/
structure FittedAD where
  scoreSamples : List ℚ → ℚ      -- IsolationForest.score_samples(...)[0]
  decisionFunction : List ℚ → ℚ  -- pyod decision_function(...)[0]
  predictFlag : List ℚ → ℤ       -- predict(...)[0]

/-- A fitted `AnomalyDetector` (model, fitted scaler, baseline stats).
The baseline mean/std maps feed `_calculate_deviations`, which only
renders presentation fields. -/
structure ADState where
  method : String
  model : FittedAD
  scalerT : List ℚ → List ℚ
  baselineMean : List (String × ℚ)
  baselineStd : List (String × ℚ)

/-- The fields of `detect`'s result that the verified properties concern.
`deviations` / `contributing_factors` / `recommendations` /
`suggested_actions` are string-rendering (and, for recommendations,
Python-set-ordered) presentation fields and are not carried. -/
structure ADResult where
  is_anomaly : Bool
  anomaly_score : ℚ
  confidence_score : ℚ
  anomaly_types : List String
  severity : String
  detection_method : String
  current_metrics : ADFeatures
  risk_level : String
  urgency : String
deriving DecidableEq

/-- `detect`, on a fitted detector. -/
def detect (d : ADState) (metrics : List (String × ℚ)) : ADResult :=
  let features := extractFeaturesAD metrics
  let X := features.toList
  let Xscaled := d.scalerT X
  let anomaly_score : ℚ :=
    if d.method = "isolation_forest" then -(d.model.scoreSamples Xscaled)
    else d.model.decisionFunction Xscaled
  let is_anomaly : Bool :=
    if d.method = "isolation_forest" then d.model.predictFlag Xscaled = -1
    else d.model.predictFlag Xscaled = 1
  let normalized := min (max (anomaly_score * 50 + 50) 0) 100
  let types := classifyAnomalyType metrics features
  let severity := assessSeverity normalized types
  { is_anomaly := is_anomaly
    anomaly_score := pyRound2 normalized
    confidence_score := pyRound2 (min (|anomaly_score| / 2) 1)
    anomaly_types := types
    severity := severity
    detection_method := d.method
    current_metrics := features
    risk_level := getRiskLevel normalized types
    urgency := assessUrgency severity types }

/-- The bundle written by `save_model` / read by `load_model`. -/
structure ADBundle where
  model : FittedAD
  scalerT : List ℚ → List ℚ
  baselineMean : List (String × ℚ)
  baselineStd : List (String × ℚ)
  method : String

/-- `AnomalyDetector.load_model`: unconditionally adopts every field of the
bundle, including the method tag; there is no validation and no failure
path. -/
def adLoadModel (d : ADState) (bundle : ADBundle) : ADState :=
  { method := bundle.method
    model := bundle.model
    scalerT := bundle.scalerT
    baselineMean := bundle.baselineMean
    baselineStd := bundle.baselineStd }

/-! ## ProductivityPredictor (productivity_predictor.py)

Fitting (`train`) is out of scope; a fitted regressor and a fitted scaler
are abstract functions.  The constructor, the not-trained guard, feature
extraction, the confidence-interval computation and the rule-based
factor/recommendation generation are embedded concretely.  The confidence
interval takes a square root (`np.std`), so this component's prediction
values live in `ℝ`. -/

/-- `extract_features`: the fixed ordered feature vector with per-field
defaults. -/
def extractFeaturesPP (data : List (String × ℚ)) : List ℚ :=
  let day_of_week := mget data "day_of_week" 1
  [mget data "commits_count" 0,
   mget data "pr_count" 0,
   mget data "code_reviews_given" 0,
   mget data "tasks_completed" 0,
   mget data "meetings_attended" 0,
   mget data "active_tasks" 0,
   mget data "pending_reviews" 0,
   mget data "hours_worked" 40,
   mget data "messages_sent" 0,
   mget data "collaboration_score" 0,
   day_of_week,
   if day_of_week ≥ 6 then 1 else 0,
   mget data "avg_productivity_7d" 50,
   mget data "avg_productivity_30d" 50,
   mget data "productivity_trend" 0,
   mget data "engagement_score" 50,
   mget data "sentiment_score" 0,
   mget data "velocity" 0,
   mget data "burndown_rate" 0,
   mget data "code_quality_score" 0,
   mget data "bug_rate" 0]

/-- `np.std` (population standard deviation, `ddof = 0`). -/
noncomputable def npStd (l : List ℝ) : ℝ :=
  Real.sqrt ((l.map fun x => (x - l.sum / l.length) ^ 2).sum / l.length)

/-- A fitted regressor: point prediction, plus the per-sub-estimator
prediction functions when the model has an `estimators_` attribute. -/
structure FittedReg where
  predictFn : List ℝ → ℝ
  estimators : Option (List (List ℝ → ℝ))

/-- The two distinguishable failures on the `predict` path:
the predictor's own `ValueError("Model not trained. Call train() first.")`
and scikit-learn's `NotFittedError` (raised by an unfitted
`StandardScaler.transform` or an unfitted estimator's `predict`). -/
inductive PPError where
  | notTrained
  | notFitted
deriving DecidableEq

/-- `ProductivityPredictor` state: `self.model` is `None` exactly when the
constructor recognized no model type; a constructed-but-unfitted estimator
is `some none`; a fitted one is `some (some f)`.  `self.scaler` is a fitted
transform once `fit_transform` has run, `none` before. -/
structure PPState where
  model_type : String
  scaler : Option (List ℚ → List ℝ)
  model : Option (Option FittedReg)
  feature_names : List String
  feature_importance : List (String × ℚ)

/-- `ProductivityPredictor.__init__`. -/
def ppInit (model_type : String) : PPState :=
  { model_type := model_type
    scaler := none
    model :=
      if model_type = "random_forest" ∨ model_type = "gradient_boosting"
      then some none else none
    feature_names := []
    feature_importance := [] }

/-- `round(x, 2)` over the reals. -/
noncomputable def pyRound2R (x : ℝ) : ℝ := (round (x * 100) : ℤ) / 100

/-- `_identify_factors`. -/
def identifyFactors (features : List (String × ℚ)) : List String × List String :=
  let pos :=
    (if mget features "engagement_score" 0 > 70 then ["High engagement level"] else []) ++
    (if mget features "sentiment_score" 0 > 1/2 then ["Positive sentiment"] else []) ++
    (if mget features "collaboration_score" 0 > 70 then ["Strong collaboration"] else []) ++
    (if mget features "productivity_trend" 0 > 1/10 then ["Improving trend"] else [])
  let neg :=
    (if ¬ mget features "engagement_score" 0 > 70 ∧ mget features "engagement_score" 0 < 40
      then ["Low engagement level"] else []) ++
    (if ¬ mget features "sentiment_score" 0 > 1/2 ∧ mget features "sentiment_score" 0 < -(3/10)
      then ["Negative sentiment"] else []) ++
    (if ¬ mget features "collaboration_score" 0 > 70 ∧ mget features "collaboration_score" 0 < 40
      then ["Limited collaboration"] else []) ++
    (if mget features "active_tasks" 0 > 10 then ["High workload"] else []) ++
    (if mget features "hours_worked" 40 > 50 then ["Potential overwork"] else []) ++
    (if ¬ mget features "productivity_trend" 0 > 1/10 ∧ mget features "productivity_trend" 0 < -(1/10)
      then ["Declining trend"] else [])
  (pos, neg)

/-- `_generate_recommendations` (threshold rules; the first rule reads the
real-valued prediction). -/
noncomputable def genRecommendationsPP (features : List (String × ℚ)) (pred : ℝ) :
    List String :=
  (if pred < 50 then ["Schedule 1-on-1 to discuss workload and blockers"] else []) ++
  (if mget features "sentiment_score" 0 < -(3/10)
    then ["Check in on team morale and wellbeing"] else []) ++
  (if mget features "active_tasks" 0 > 10
    then ["Help prioritize tasks to reduce cognitive load"] else []) ++
  (if mget features "collaboration_score" 0 < 40
    then ["Encourage pair programming or collaboration sessions"] else []) ++
  (if mget features "productivity_trend" 0 < -(1/10)
    then ["Identify and address blockers causing decline"] else []) ++
  (if mget features "hours_worked" 40 > 50
    then ["Monitor for burnout risk and encourage work-life balance"] else [])

structure ConfidenceInterval where
  lower : ℝ
  upper : ℝ

structure PredictionResult where
  predicted_score : ℝ
  confidence : ℝ
  confidence_interval : ConfidenceInterval
  feature_importance : List (String × ℚ)
  positive_factors : List String
  negative_factors : List String
  recommendations : List String

/-- `predict`: not-trained guard, feature extraction, scaling (an unfitted
scaler raises `NotFittedError`), point prediction (likewise for an
unfitted estimator), ensemble/non-ensemble confidence computation,
factors and recommendations. -/
noncomputable def ppPredict (p : PPState) (features : List (String × ℚ)) :
    Except PPError PredictionResult :=
  match p.model with
  | none => .error .notTrained
  | some mo =>
    let X := extractFeaturesPP features
    match p.scaler with
    | none => .error .notFitted
    | some transform =>
      let Xscaled := transform X
      match mo with
      | none => .error .notFitted
      | some f =>
        let prediction := f.predictFn Xscaled
        let ci_conf : ConfidenceInterval × ℝ :=
          match f.estimators with
          | some ests =>
            let predictions := ests.map fun est => est Xscaled
            let std := npStd predictions
            (⟨prediction - 1.96 * std, prediction + 1.96 * std⟩,
             if prediction > 0 then 1 - min (std / prediction) 1 else 1/2)
          | none => (⟨prediction * (9/10), prediction * (11/10)⟩, 3/4)
        let factors := identifyFactors features
        .ok {
          predicted_score := pyRound2R prediction
          confidence := pyRound2R ci_conf.2
          confidence_interval :=
            ⟨pyRound2R ci_conf.1.lower, pyRound2R ci_conf.1.upper⟩
          feature_importance := p.feature_importance
          positive_factors := factors.1
          negative_factors := factors.2
          recommendations := genRecommendationsPP features prediction }

/-- The bundle written by `ProductivityPredictor.save_model` / read by
`load_model`: model, scaler, feature names, feature importances — and no
model-type tag. -/
structure PPBundle where
  model : Option FittedReg
  scalerT : List ℚ → List ℝ
  feature_names : List String
  feature_importance : List (String × ℚ)

/-- `ProductivityPredictor.load_model`: adopts the bundle's fields; the
configured `model_type` is untouched and nothing is validated. -/
def ppLoadModel (p : PPState) (bundle : PPBundle) : PPState :=
  { model_type := p.model_type
    scaler := some bundle.scalerT
    model := some bundle.model
    feature_names := bundle.feature_names
    feature_importance := bundle.feature_importance }

/-! ## EngagementScorer (engagement_scorer.py) -/

/-- The five component weights; `__init__` replaces a falsy argument with
the defaults. -/
structure EngWeights where
  participation : ℚ
  communication : ℚ
  collaboration : ℚ
  initiative : ℚ
  responsiveness : ℚ
deriving DecidableEq

def defaultWeights : EngWeights :=
  { participation := 1/4
    communication := 1/5
    collaboration := 1/5
    initiative := 1/5
    responsiveness := 3/20 }

/-- `_score_participation`. -/
def scoreParticipation (m : List (String × ℚ)) : ℚ :=
  let attendance_rate :=
    min (mget m "meetings_attended" 0 / max (mget m "total_meetings" 1) 1) 1
  let score :=
    attendance_rate * 30
    + mget m "meeting_participation_rate" (1/2) * 25
    + min (mget m "forum_posts" 0 / 10) 1 * 20
    + min (mget m "events_attended" 0 / 5) 1 * 15
    + min (mget m "surveys_completed" 0 / max (mget m "total_surveys" 1) 1) 1 * 10
  min score 100

/-- `_score_communication`. -/
def scoreCommunication (m : List (String × ℚ)) : ℚ :=
  let message_rate :=
    min (mget m "messages_sent" 0 / mget m "expected_messages_per_week" 50) (3/2)
  let score :=
    min (message_rate * 30) 40
    + min (mget m "responses_to_mentions" 0 / max (mget m "total_mentions" 1) 1) 1 * 25
    + mget m "communication_clarity" (7/10) * 20
    + min (mget m "reactions_given" 0 / 20) 1 * 15
  min score 100

/-- `_score_collaboration`. -/
def scoreCollaboration (m : List (String × ℚ)) : ℚ :=
  let score :=
    min (mget m "code_reviews_given" 0 / 10) 1 * 25
    + min (mget m "pair_programming_sessions" 0 / 5) 1 * 20
    + min (mget m "knowledge_contributions" 0 / 3) 1 * 20
    + min (mget m "cross_team_collaborations" 0 / 5) 1 * 20
    + min (mget m "mentoring_sessions" 0 / 3) 1 * 15
  min score 100

/-- `_score_initiative`. -/
def scoreInitiative (m : List (String × ℚ)) : ℚ :=
  let score :=
    min (mget m "self_initiated_tasks" 0 / 3) 1 * 30
    + min (mget m "improvements_suggested" 0 / 2) 1 * 25
    + min (mget m "voluntary_contributions" 0 / 3) 1 * 20
    + min (mget m "proactive_problem_solving" 0 / 3) 1 * 15
    + min (mget m "learning_activities" 0 / 2) 1 * 10
  min score 100

/-- `_score_responsiveness`. -/
def scoreResponsiveness (m : List (String × ℚ)) : ℚ :=
  let avg_response_time := mget m "avg_response_time_hours" 24
  let timeScore : ℚ :=
    if avg_response_time ≤ 2 then 40
    else if avg_response_time ≤ 8 then 30
    else if avg_response_time ≤ 24 then 20
    else 10
  let score :=
    timeScore
    + mget m "response_rate" (7/10) * 30
    + mget m "availability_percentage" (4/5) * 20
    + mget m "acknowledgment_rate" (3/5) * 10
  min score 100

/-- `_get_score_level`. -/
def getScoreLevel (score : ℚ) : String :=
  if score ≥ 80 then "VERY_HIGH"
  else if score ≥ 65 then "HIGH"
  else if score ≥ 45 then "MODERATE"
  else if score ≥ 30 then "LOW"
  else "VERY_LOW"

/-- `_calculate_trend`. -/
def calcTrend (m : List (String × ℚ)) : String × ℚ × ℚ :=
  let change := mget m "current_engagement_score" 50 - mget m "previous_engagement_score" 50
  let wow := mget m "current_engagement_score" 50 - mget m "week_ago_engagement_score" 50
  (if change > 5 then "IMPROVING" else if change < -5 then "DECLINING" else "STABLE",
   pyRound2 change, pyRound2 wow)

/-- `_assess_risk`: the additive point system and its level thresholds. -/
def assessRisk (overall : ℚ) (participation communication initiative responsiveness : ℚ)
    (m : List (String × ℚ)) : List String × Bool × String :=
  let risk_score : ℚ :=
    (if overall < 40 then 30 else 0)
    + (if mget m "engagement_trend" 0 < -10 then 20 else 0)
    + (if participation < 30 then 15 else 0)
    + (if communication < 30 then 15 else 0)
    + (if initiative < 20 then 10 else 0)
    + (if responsiveness < 30 then 10 else 0)
  let factors :=
    (if overall < 40 then ["Overall engagement below threshold"] else []) ++
    (if mget m "engagement_trend" 0 < -10 then ["Declining engagement trend"] else []) ++
    (if participation < 30 then ["Very low participation in meetings and activities"] else []) ++
    (if communication < 30 then ["Minimal communication with team"] else []) ++
    (if initiative < 20 then ["Lack of proactive behavior"] else []) ++
    (if responsiveness < 30 then ["Slow or no responses to communications"] else [])
  if risk_score ≥ 50 then (factors, true, "CRITICAL")
  else if risk_score ≥ 30 then (factors, true, "HIGH")
  else if risk_score ≥ 15 then (factors, true, "MEDIUM")
  else (factors, false, "LOW")

/-- The fields of `calculate_score`'s result the verified properties
concern (`activity_metrics` and `engagement_patterns` summarize non-numeric
sub-dictionaries and are not carried). -/
structure EngagementResult where
  overall_score : ℚ
  score_level : String
  participation : ℚ
  communication : ℚ
  collaboration : ℚ
  initiative : ℚ
  responsiveness : ℚ
  trend_direction : String
  change_from_previous : ℚ
  week_over_week_change : ℚ
  risk_factors : List String
  at_risk : Bool
  risk_level : String
deriving DecidableEq

/-- `calculate_score`. -/
def calculateScore (w : EngWeights) (m : List (String × ℚ)) : EngagementResult :=
  let participation := scoreParticipation m
  let communication := scoreCommunication m
  let collaboration := scoreCollaboration m
  let initiative := scoreInitiative m
  let responsiveness := scoreResponsiveness m
  let overall :=
    participation * w.participation
    + communication * w.communication
    + collaboration * w.collaboration
    + initiative * w.initiative
    + responsiveness * w.responsiveness
  let trend := calcTrend m
  let risk := assessRisk overall participation communication initiative responsiveness m
  { overall_score := pyRound2 overall
    score_level := getScoreLevel overall
    participation := pyRound2 participation
    communication := pyRound2 communication
    collaboration := pyRound2 collaboration
    initiative := pyRound2 initiative
    responsiveness := pyRound2 responsiveness
    trend_direction := trend.1
    change_from_previous := trend.2.1
    week_over_week_change := trend.2.2
    risk_factors := risk.1
    at_risk := risk.2.1
    risk_level := risk.2.2 }

/-! ### Supporting lemmas: rounding -/

lemma pyRound2_mono {x y : ℚ} (h : x ≤ y) : pyRound2 x ≤ pyRound2 y := by
  unfold pyRound2
  have hr : round (x * 100) ≤ round (y * 100) := by
    rw [round_eq, round_eq]
    exact Int.floor_mono (by linarith)
  have hq : ((round (x * 100) : ℤ) : ℚ) ≤ ((round (y * 100) : ℤ) : ℚ) := Int.cast_le.2 hr
  linarith

lemma pyRound2_of_mul_int (x : ℚ) (m : ℤ) (h : x * 100 = (m : ℚ)) : pyRound2 x = x := by
  unfold pyRound2
  rw [h, round_intCast, ← h]
  field_simp

/-! ### Supporting lemmas: series minimum / maximum -/

lemma foldl_min_le_init (l : List ℚ) : ∀ a : ℚ, l.foldl min a ≤ a := by
  induction l with
  | nil => intro a; simp
  | cons x xs ih =>
    intro a
    exact le_trans (ih (min a x)) (min_le_left _ _)

lemma foldl_min_le_mem (l : List ℚ) : ∀ a x : ℚ, x ∈ l → l.foldl min a ≤ x := by
  induction l with
  | nil => intro a x hx; cases hx
  | cons y ys ih =>
    intro a x hx
    rcases List.mem_cons.1 hx with rfl | hx
    · exact le_trans (foldl_min_le_init ys (min a x)) (min_le_right _ _)
    · exact ih (min a y) x hx

lemma seriesMin_le_of_mem {l : List ℚ} {x : ℚ} (hx : x ∈ l) : seriesMin l ≤ x := by
  cases l with
  | nil => cases hx
  | cons y ys =>
    rcases List.mem_cons.1 hx with rfl | h
    · exact foldl_min_le_init ys x
    · exact foldl_min_le_mem ys y x h

lemma init_le_foldl_max (l : List ℚ) : ∀ a : ℚ, a ≤ l.foldl max a := by
  induction l with
  | nil => intro a; simp
  | cons x xs ih =>
    intro a
    exact le_trans (le_max_left a x) (ih (max a x))

lemma mem_le_foldl_max (l : List ℚ) : ∀ a x : ℚ, x ∈ l → x ≤ l.foldl max a := by
  induction l with
  | nil => intro a x hx; cases hx
  | cons y ys ih =>
    intro a x hx
    rcases List.mem_cons.1 hx with rfl | hx
    · exact le_trans (le_max_right a x) (init_le_foldl_max ys (max a x))
    · exact ih (max a y) x hx

lemma le_seriesMax_of_mem {l : List ℚ} {x : ℚ} (hx : x ∈ l) : x ≤ seriesMax l := by
  cases l with
  | nil => cases hx
  | cons y ys =>
    rcases List.mem_cons.1 hx with rfl | h
    · exact init_le_foldl_max ys x
    · exact mem_le_foldl_max ys y x h

/-! ### Supporting lemmas: sorted values and `np.percentile` -/

lemma sortedQ_sorted (l : List ℚ) : (sortedQ l).Sorted (· ≤ ·) :=
  List.sorted_insertionSort _ l

lemma sortedQ_perm (l : List ℚ) : List.Perm (sortedQ l) l :=
  List.perm_insertionSort _ l

lemma sortedQ_ne_nil {l : List ℚ} (hl : l ≠ []) : sortedQ l ≠ [] := by
  intro h
  exact hl (List.Perm.eq_nil ((sortedQ_perm l).symm.trans (h ▸ List.Perm.refl _)))

lemma nthC_mem {s : List ℚ} (hs : s ≠ []) (i : ℕ) : nthC s i ∈ s := by
  unfold nthC
  have hlen : 0 < s.length := List.length_pos.2 hs
  have h : min i (s.length - 1) < s.length :=
    lt_of_le_of_lt (min_le_right _ _) (Nat.sub_lt hlen one_pos)
  rw [List.getD_eq_getElem _ _ h]
  exact List.getElem_mem h

lemma nthC_mono {s : List ℚ} (hsort : s.Sorted (· ≤ ·)) (hs : s ≠ [])
    {i j : ℕ} (hij : i ≤ j) : nthC s i ≤ nthC s j := by
  unfold nthC
  have hlen : 0 < s.length := List.length_pos.2 hs
  have hi : min i (s.length - 1) < s.length :=
    lt_of_le_of_lt (min_le_right _ _) (Nat.sub_lt hlen one_pos)
  have hj : min j (s.length - 1) < s.length :=
    lt_of_le_of_lt (min_le_right _ _) (Nat.sub_lt hlen one_pos)
  rw [List.getD_eq_getElem _ _ hi, List.getD_eq_getElem _ _ hj]
  have h := hsort.rel_get_of_le (a := ⟨min i (s.length - 1), hi⟩)
    (b := ⟨min j (s.length - 1), hj⟩)
    (by exact min_le_min hij (le_refl (s.length - 1)))
  simpa using h

lemma interp_lower {s : List ℚ} (hsort : s.Sorted (· ≤ ·)) (hs : s ≠ [])
    (i : ℕ) {g : ℚ} (hg0 : 0 ≤ g) :
    nthC s i ≤ nthC s i + g * (nthC s (i + 1) - nthC s i) := by
  have hd : 0 ≤ nthC s (i + 1) - nthC s i :=
    sub_nonneg.2 (nthC_mono hsort hs (Nat.le_succ i))
  nlinarith

lemma interp_upper {s : List ℚ} (hsort : s.Sorted (· ≤ ·)) (hs : s ≠ [])
    (i : ℕ) {g : ℚ} (hg1 : g ≤ 1) :
    nthC s i + g * (nthC s (i + 1) - nthC s i) ≤ nthC s (i + 1) := by
  have hd : 0 ≤ nthC s (i + 1) - nthC s i :=
    sub_nonneg.2 (nthC_mono hsort hs (Nat.le_succ i))
  nlinarith

/-- Floor-index facts for a nonnegative virtual index `h`. -/
lemma floorIdx_facts {h : ℚ} (h0 : 0 ≤ h) :
    ((⌊h⌋.toNat : ℚ)) ≤ h ∧ h - ((⌊h⌋.toNat : ℚ)) < 1 := by
  have hfl : 0 ≤ ⌊h⌋ := Int.floor_nonneg.2 h0
  have hcast : ((⌊h⌋.toNat : ℤ)) = ⌊h⌋ := Int.toNat_of_nonneg hfl
  have h1 : ((⌊h⌋ : ℚ)) ≤ h := Int.floor_le h
  have h2 : h < (⌊h⌋ : ℚ) + 1 := Int.lt_floor_add_one h
  constructor
  · calc ((⌊h⌋.toNat : ℚ)) = ((⌊h⌋.toNat : ℤ) : ℚ) := by push_cast; ring
      _ = ((⌊h⌋ : ℚ)) := by rw [hcast]
      _ ≤ h := h1
  · have : ((⌊h⌋.toNat : ℚ)) = ((⌊h⌋ : ℚ)) := by
      rw [show ((⌊h⌋.toNat : ℚ)) = ((⌊h⌋.toNat : ℤ) : ℚ) by push_cast; ring, hcast]
    rw [this]; linarith

lemma interpAt_mono {s : List ℚ} (hsort : s.Sorted (· ≤ ·)) (hs : s ≠ [])
    {h1 h2 : ℚ} (h1n : 0 ≤ h1) (hle : h1 ≤ h2) : interpAt s h1 ≤ interpAt s h2 := by
  have h2n : 0 ≤ h2 := le_trans h1n hle
  obtain ⟨hA1, hB1⟩ := floorIdx_facts h1n
  obtain ⟨hA2, hB2⟩ := floorIdx_facts h2n
  have hii : ⌊h1⌋.toNat ≤ ⌊h2⌋.toNat := Int.toNat_le_toNat (Int.floor_mono hle)
  unfold interpAt
  rcases Nat.eq_or_lt_of_le hii with heq | hlt
  · -- same floor index: the interpolation weight grows, the slope is nonnegative
    rw [← heq]
    have hd : 0 ≤ nthC s (⌊h1⌋.toNat + 1) - nthC s ⌊h1⌋.toNat :=
      sub_nonneg.2 (nthC_mono hsort hs (Nat.le_succ _))
    have hgg : h1 - (⌊h1⌋.toNat : ℚ) ≤ h2 - (⌊h1⌋.toNat : ℚ) := by linarith
    nlinarith
  · -- strictly larger floor index: chain through the breakpoints
    have hstep1 := interp_upper hsort hs ⌊h1⌋.toNat (le_of_lt hB1)
    have hstep2 : nthC s (⌊h1⌋.toNat + 1) ≤ nthC s ⌊h2⌋.toNat := nthC_mono hsort hs hlt
    have hstep3 := interp_lower hsort hs ⌊h2⌋.toNat (g := h2 - (⌊h2⌋.toNat : ℚ)) (by linarith)
    linarith

lemma interpAt_bounds {s : List ℚ} (hsort : s.Sorted (· ≤ ·)) (hs : s ≠ [])
    {h : ℚ} (hn : 0 ≤ h) :
    nthC s ⌊h⌋.toNat ≤ interpAt s h ∧ interpAt s h ≤ nthC s (⌊h⌋.toNat + 1) := by
  obtain ⟨hA, hB⟩ := floorIdx_facts hn
  exact ⟨interp_lower hsort hs _ (by linarith), interp_upper hsort hs _ (le_of_lt hB)⟩

/-- `np.percentile` is monotone in the percentile argument. -/
lemma npPercentile_mono {l : List ℚ} (hl : l ≠ []) {q1 q2 : ℚ}
    (h0 : 0 ≤ q1) (h12 : q1 ≤ q2) : npPercentile l q1 ≤ npPercentile l q2 := by
  unfold npPercentile
  have hc : (0 : ℚ) ≤ (((sortedQ l).length - 1 : ℕ) : ℚ) := Nat.cast_nonneg _
  exact interpAt_mono (sortedQ_sorted l) (sortedQ_ne_nil hl)
    (by positivity) (by gcongr)

/-- `np.percentile` stays between the least and greatest data value. -/
lemma npPercentile_bounds {l : List ℚ} (hl : l ≠ []) {q : ℚ} (h0 : 0 ≤ q) :
    seriesMin l ≤ npPercentile l q ∧ npPercentile l q ≤ seriesMax l := by
  unfold npPercentile
  have hsne := sortedQ_ne_nil hl
  have hc : (0 : ℚ) ≤ (((sortedQ l).length - 1 : ℕ) : ℚ) := Nat.cast_nonneg _
  have hn : (0:ℚ) ≤ q * (((sortedQ l).length - 1 : ℕ) : ℚ) / 100 := by positivity
  obtain ⟨hlow, hup⟩ := interpAt_bounds (sortedQ_sorted l) hsne hn
  have hmem1 := (sortedQ_perm l).subset (nthC_mem hsne ⌊q * (((sortedQ l).length - 1 : ℕ) : ℚ) / 100⌋.toNat)
  have hmem2 := (sortedQ_perm l).subset (nthC_mem hsne (⌊q * (((sortedQ l).length - 1 : ℕ) : ℚ) / 100⌋.toNat + 1))
  exact ⟨le_trans (seriesMin_le_of_mem hmem1) hlow,
         le_trans hup (le_seriesMax_of_mem hmem2)⟩

/-! ### Supporting lemmas: created benchmarks are well-formed -/

/-- Breakpoint ordering every stored benchmark enjoys. -/
def bwf (b : Benchmark) : Prop :=
  b.min_value ≤ b.percentile_25 ∧ b.percentile_25 ≤ b.percentile_50 ∧
  b.percentile_50 ≤ b.percentile_75 ∧ b.percentile_75 ≤ b.percentile_90 ∧
  b.percentile_90 ≤ b.max_value

lemma computeBenchmark_ok {df : DataFrame} {metric : String}
    {seg : List (String × String)} {b : Benchmark}
    (h : computeBenchmark df metric seg = .ok b) :
    10 ≤ (metricValues (filterSegment df seg) metric).length ∧
    b.percentile_25 = npPercentile (metricValues (filterSegment df seg) metric) 25 ∧
    b.percentile_50 = npPercentile (metricValues (filterSegment df seg) metric) 50 ∧
    b.percentile_75 = npPercentile (metricValues (filterSegment df seg) metric) 75 ∧
    b.percentile_90 = npPercentile (metricValues (filterSegment df seg) metric) 90 ∧
    b.min_value = seriesMin (metricValues (filterSegment df seg) metric) ∧
    b.max_value = seriesMax (metricValues (filterSegment df seg) metric) ∧
    b.sample_size = (metricValues (filterSegment df seg) metric).length := by
  simp only [computeBenchmark] at h
  split at h
  · exact absurd h (by simp)
  · split at h
    · exact absurd h (by simp)
    · split at h
      · exact absurd h (by simp)
      · rename_i hlen
        obtain rfl := Except.ok.inj h
        refine ⟨by omega, rfl, rfl, rfl, rfl, rfl, rfl, rfl⟩

lemma computeBenchmark_wf {df : DataFrame} {metric : String}
    {seg : List (String × String)} {b : Benchmark}
    (h : computeBenchmark df metric seg = .ok b) : bwf b := by
  obtain ⟨hlen, h25, h50, h75, h90, hmin, hmax, _⟩ := computeBenchmark_ok h
  have hne : metricValues (filterSegment df seg) metric ≠ [] := by
    intro hnil
    rw [hnil] at hlen
    simp at hlen
  refine ⟨?_, ?_, ?_, ?_, ?_⟩
  · rw [hmin, h25]; exact (npPercentile_bounds hne (by norm_num)).1
  · rw [h25, h50]; exact npPercentile_mono hne (by norm_num) (by norm_num)
  · rw [h50, h75]; exact npPercentile_mono hne (by norm_num) (by norm_num)
  · rw [h75, h90]; exact npPercentile_mono hne (by norm_num) (by norm_num)
  · rw [h90, hmax]; exact (npPercentile_bounds hne (by norm_num)).2

/-! ### Supporting lemmas: the percentile-rank interpolation -/

lemma rank_of_le_p25 {b : Benchmark} (hwf : bwf b) {v : ℚ}
    (h : v ≤ b.percentile_25) :
    0 ≤ calcPercentileRank b v ∧ calcPercentileRank b v ≤ 25 := by
  obtain ⟨w1, w2, w3, w4, w5⟩ := hwf
  unfold calcPercentileRank
  rw [if_pos h]
  by_cases hm : v ≤ b.min_value
  · rw [if_pos hm]; norm_num
  · rw [if_neg hm]
    push_neg at hm
    have hd : 0 < b.percentile_25 - b.min_value := by linarith
    have h1 : 0 ≤ 25 * (v - b.min_value) / (b.percentile_25 - b.min_value) :=
      div_nonneg (by linarith) (le_of_lt hd)
    have h2 : 25 * (v - b.min_value) / (b.percentile_25 - b.min_value) ≤ 25 := by
      rw [div_le_iff₀ hd]; linarith
    exact ⟨h1, h2⟩

lemma rank_of_in_25_50 {b : Benchmark} (hwf : bwf b) {v : ℚ}
    (h1 : ¬ v ≤ b.percentile_25) (h2 : v ≤ b.percentile_50) :
    25 ≤ calcPercentileRank b v ∧ calcPercentileRank b v ≤ 50 := by
  push_neg at h1
  unfold calcPercentileRank
  rw [if_neg (not_le.2 h1), if_pos h2]
  have hd : 0 < b.percentile_50 - b.percentile_25 := by linarith
  have hn : 0 ≤ 25 * (v - b.percentile_25) / (b.percentile_50 - b.percentile_25) :=
    div_nonneg (by linarith) (le_of_lt hd)
  have hu : 25 * (v - b.percentile_25) / (b.percentile_50 - b.percentile_25) ≤ 25 := by
    rw [div_le_iff₀ hd]; linarith
  constructor <;> linarith

lemma rank_of_in_50_75 {b : Benchmark} (hwf : bwf b) {v : ℚ}
    (h1 : ¬ v ≤ b.percentile_50) (h2 : v ≤ b.percentile_75) :
    50 ≤ calcPercentileRank b v ∧ calcPercentileRank b v ≤ 75 := by
  obtain ⟨w1, w2, w3, w4, w5⟩ := hwf
  push_neg at h1
  unfold calcPercentileRank
  rw [if_neg (not_le.2 (lt_of_le_of_lt w2 h1)), if_neg (not_le.2 h1), if_pos h2]
  have hd : 0 < b.percentile_75 - b.percentile_50 := by linarith
  have hn : 0 ≤ 25 * (v - b.percentile_50) / (b.percentile_75 - b.percentile_50) :=
    div_nonneg (by linarith) (le_of_lt hd)
  have hu : 25 * (v - b.percentile_50) / (b.percentile_75 - b.percentile_50) ≤ 25 := by
    rw [div_le_iff₀ hd]; linarith
  constructor <;> linarith

lemma rank_of_in_75_90 {b : Benchmark} (hwf : bwf b) {v : ℚ}
    (h1 : ¬ v ≤ b.percentile_75) (h2 : v ≤ b.percentile_90) :
    75 ≤ calcPercentileRank b v ∧ calcPercentileRank b v ≤ 90 := by
  obtain ⟨w1, w2, w3, w4, w5⟩ := hwf
  push_neg at h1
  unfold calcPercentileRank
  rw [if_neg (not_le.2 (lt_of_le_of_lt (w2.trans w3) h1)),
    if_neg (not_le.2 (lt_of_le_of_lt w3 h1)), if_neg (not_le.2 h1), if_pos h2]
  have hd : 0 < b.percentile_90 - b.percentile_75 := by linarith
  have hn : 0 ≤ 15 * (v - b.percentile_75) / (b.percentile_90 - b.percentile_75) :=
    div_nonneg (by linarith) (le_of_lt hd)
  have hu : 15 * (v - b.percentile_75) / (b.percentile_90 - b.percentile_75) ≤ 15 := by
    rw [div_le_iff₀ hd]; linarith
  constructor <;> linarith

lemma rank_of_gt_p90 {b : Benchmark} (hwf : bwf b) {v : ℚ}
    (h1 : ¬ v ≤ b.percentile_90) :
    90 ≤ calcPercentileRank b v ∧ calcPercentileRank b v ≤ 100 := by
  obtain ⟨w1, w2, w3, w4, w5⟩ := hwf
  push_neg at h1
  unfold calcPercentileRank
  rw [if_neg (not_le.2 (lt_of_le_of_lt (w2.trans (w3.trans w4)) h1)),
    if_neg (not_le.2 (lt_of_le_of_lt (w3.trans w4) h1)),
    if_neg (not_le.2 (lt_of_le_of_lt w4 h1)), if_neg (not_le.2 h1)]
  by_cases hx : v ≥ b.max_value
  · rw [if_pos hx]; norm_num
  · rw [if_neg hx]
    push_neg at hx
    have hd : 0 < b.max_value - b.percentile_90 := by linarith
    have hn : 0 ≤ 10 * (v - b.percentile_90) / (b.max_value - b.percentile_90) :=
      div_nonneg (by linarith) (le_of_lt hd)
    have hu : 10 * (v - b.percentile_90) / (b.max_value - b.percentile_90) ≤ 10 := by
      rw [div_le_iff₀ hd]; linarith
    constructor <;> linarith

lemma rank_bounds {b : Benchmark} (hwf : bwf b) (v : ℚ) :
    0 ≤ calcPercentileRank b v ∧ calcPercentileRank b v ≤ 100 := by
  by_cases h1 : v ≤ b.percentile_25
  · obtain ⟨a, c⟩ := rank_of_le_p25 hwf h1; exact ⟨a, by linarith⟩
  by_cases h2 : v ≤ b.percentile_50
  · obtain ⟨a, c⟩ := rank_of_in_25_50 hwf h1 h2; exact ⟨by linarith, by linarith⟩
  by_cases h3 : v ≤ b.percentile_75
  · obtain ⟨a, c⟩ := rank_of_in_50_75 hwf h2 h3; exact ⟨by linarith, by linarith⟩
  by_cases h4 : v ≤ b.percentile_90
  · obtain ⟨a, c⟩ := rank_of_in_75_90 hwf h3 h4; exact ⟨by linarith, by linarith⟩
  · obtain ⟨a, c⟩ := rank_of_gt_p90 hwf h4; exact ⟨by linarith, c⟩

lemma rank_ge_25 {b : Benchmark} (hwf : bwf b) {v : ℚ}
    (h : ¬ v ≤ b.percentile_25) : 25 ≤ calcPercentileRank b v := by
  by_cases h2 : v ≤ b.percentile_50
  · exact (rank_of_in_25_50 hwf h h2).1
  by_cases h3 : v ≤ b.percentile_75
  · linarith [(rank_of_in_50_75 hwf h2 h3).1]
  by_cases h4 : v ≤ b.percentile_90
  · linarith [(rank_of_in_75_90 hwf h3 h4).1]
  · linarith [(rank_of_gt_p90 hwf h4).1]

lemma rank_ge_50 {b : Benchmark} (hwf : bwf b) {v : ℚ}
    (h : ¬ v ≤ b.percentile_50) : 50 ≤ calcPercentileRank b v := by
  by_cases h3 : v ≤ b.percentile_75
  · exact (rank_of_in_50_75 hwf h h3).1
  by_cases h4 : v ≤ b.percentile_90
  · linarith [(rank_of_in_75_90 hwf h3 h4).1]
  · linarith [(rank_of_gt_p90 hwf h4).1]

lemma rank_ge_75 {b : Benchmark} (hwf : bwf b) {v : ℚ}
    (h : ¬ v ≤ b.percentile_75) : 75 ≤ calcPercentileRank b v := by
  by_cases h4 : v ≤ b.percentile_90
  · exact (rank_of_in_75_90 hwf h h4).1
  · linarith [(rank_of_gt_p90 hwf h4).1]

lemma rank_eq_zero_of_le_min {b : Benchmark} (hwf : bwf b) {v : ℚ}
    (h : v ≤ b.min_value) : calcPercentileRank b v = 0 := by
  unfold calcPercentileRank
  rw [if_pos (le_trans h hwf.1), if_pos h]

lemma rank_eq_100_of_ge_max {b : Benchmark} (hwf : bwf b)
    (hlt : b.percentile_90 < b.max_value) {v : ℚ}
    (h : b.max_value ≤ v) : calcPercentileRank b v = 100 := by
  obtain ⟨w1, w2, w3, w4, w5⟩ := hwf
  have h90 : ¬ v ≤ b.percentile_90 := not_le.2 (lt_of_lt_of_le hlt h)
  unfold calcPercentileRank
  rw [if_neg (not_le.2 (lt_of_le_of_lt (w2.trans (w3.trans w4)) (lt_of_lt_of_le hlt h))),
    if_neg (not_le.2 (lt_of_le_of_lt (w3.trans w4) (lt_of_lt_of_le hlt h))),
    if_neg (not_le.2 (lt_of_le_of_lt w4 (lt_of_lt_of_le hlt h))), if_neg h90,
    if_pos (show v ≥ b.max_value from h)]

lemma rank_mono {b : Benchmark} (hwf : bwf b) {v w : ℚ} (hvw : v ≤ w) :
    calcPercentileRank b v ≤ calcPercentileRank b w := by
  have hwf' := hwf
  obtain ⟨w1, w2, w3, w4, w5⟩ := hwf'
  by_cases hw1 : w ≤ b.percentile_25
  · -- both in the [min, p25] branch
    have hv1 : v ≤ b.percentile_25 := le_trans hvw hw1
    unfold calcPercentileRank
    rw [if_pos hv1, if_pos hw1]
    by_cases hvm : v ≤ b.min_value
    · rw [if_pos hvm]
      by_cases hwm : w ≤ b.min_value
      · rw [if_pos hwm]
      · rw [if_neg hwm]
        push_neg at hwm
        exact div_nonneg (by linarith) (by linarith)
    · have hwm : ¬ w ≤ b.min_value := fun hc => hvm (le_trans hvw hc)
      rw [if_neg hvm, if_neg hwm]
      push_neg at hvm
      have hd : 0 < b.percentile_25 - b.min_value := by linarith
      exact (div_le_div_iff_of_pos_right hd).2 (by linarith)
  · by_cases hv1 : v ≤ b.percentile_25
    · exact le_trans (rank_of_le_p25 hwf hv1).2 (rank_ge_25 hwf hw1)
    · by_cases hw2 : w ≤ b.percentile_50
      · -- both in the (p25, p50] branch
        have hv2 : v ≤ b.percentile_50 := le_trans hvw hw2
        unfold calcPercentileRank
        rw [if_neg hv1, if_pos hv2, if_neg hw1, if_pos hw2]
        push_neg at hv1
        have hd : 0 < b.percentile_50 - b.percentile_25 := by linarith
        have := (div_le_div_iff_of_pos_right hd).2
          (show 25 * (v - b.percentile_25) ≤ 25 * (w - b.percentile_25) by linarith)
        linarith
      · by_cases hv2 : v ≤ b.percentile_50
        · exact le_trans (rank_of_in_25_50 hwf hv1 hv2).2 (rank_ge_50 hwf hw2)
        · by_cases hw3 : w ≤ b.percentile_75
          · -- both in the (p50, p75] branch
            have hv3 : v ≤ b.percentile_75 := le_trans hvw hw3
            unfold calcPercentileRank
            rw [if_neg hv1, if_neg hv2, if_pos hv3, if_neg hw1, if_neg hw2, if_pos hw3]
            push_neg at hv2
            have hd : 0 < b.percentile_75 - b.percentile_50 := by linarith
            have := (div_le_div_iff_of_pos_right hd).2
              (show 25 * (v - b.percentile_50) ≤ 25 * (w - b.percentile_50) by linarith)
            linarith
          · by_cases hv3 : v ≤ b.percentile_75
            · exact le_trans (rank_of_in_50_75 hwf hv2 hv3).2 (rank_ge_75 hwf hw3)
            · by_cases hw4 : w ≤ b.percentile_90
              · -- both in the (p75, p90] branch
                have hv4 : v ≤ b.percentile_90 := le_trans hvw hw4
                unfold calcPercentileRank
                rw [if_neg hv1, if_neg hv2, if_neg hv3, if_pos hv4,
                  if_neg hw1, if_neg hw2, if_neg hw3, if_pos hw4]
                push_neg at hv3
                have hd : 0 < b.percentile_90 - b.percentile_75 := by linarith
                have := (div_le_div_iff_of_pos_right hd).2
                  (show 15 * (v - b.percentile_75) ≤ 15 * (w - b.percentile_75) by linarith)
                linarith
              · by_cases hv4 : v ≤ b.percentile_90
                · exact le_trans (rank_of_in_75_90 hwf hv3 hv4).2 (rank_of_gt_p90 hwf hw4).1
                · -- both in the (p90, ∞) branch
                  by_cases hwx : w ≥ b.max_value
                  · have hrw : calcPercentileRank b w = 100 := by
                      unfold calcPercentileRank
                      rw [if_neg hw1, if_neg hw2, if_neg hw3, if_neg hw4, if_pos hwx]
                    rw [hrw]
                    exact (rank_bounds hwf v).2
                  · have hvx : ¬ v ≥ b.max_value := fun hc => hwx (le_trans hc hvw)
                    unfold calcPercentileRank
                    rw [if_neg hv1, if_neg hv2, if_neg hv3, if_neg hv4, if_neg hvx,
                      if_neg hw1, if_neg hw2, if_neg hw3, if_neg hw4, if_neg hwx]
                    push_neg at hv4 hvx
                    have hd : 0 < b.max_value - b.percentile_90 := by linarith
                    have := (div_le_div_iff_of_pos_right hd).2
                      (show 10 * (v - b.percentile_90) ≤ 10 * (w - b.percentile_90) by linarith)
                    linarith

/-- After a successful `create_benchmark`, `compare_to_benchmark` under the
same metric and segment finds exactly the stored benchmark. -/
lemma createBenchmark_compare {st st' : Store} {df : DataFrame} {metric : String}
    {seg : List (String × String)} {b : Benchmark}
    (h : createBenchmark st df metric seg = .ok (b, st')) (v : ℚ) :
    compareToBenchmark st' v metric seg = .ok (mkComparison b v) := by
  unfold createBenchmark at h
  cases hc : computeBenchmark df metric seg with
  | error e => rw [hc] at h; exact absurd h (by simp)
  | ok b' =>
    rw [hc] at h
    obtain ⟨rfl, rfl⟩ := Prod.mk.injEq .. ▸ Except.ok.inj h
    unfold compareToBenchmark
    simp [List.lookup]

lemma createBenchmark_compute {st st' : Store} {df : DataFrame} {metric : String}
    {seg : List (String × String)} {b : Benchmark}
    (h : createBenchmark st df metric seg = .ok (b, st')) :
    computeBenchmark df metric seg = .ok b := by
  unfold createBenchmark at h
  cases hc : computeBenchmark df metric seg with
  | error e => rw [hc] at h; exact absurd h (by simp)
  | ok b' =>
    rw [hc] at h
    obtain ⟨rfl, rfl⟩ := Prod.mk.injEq .. ▸ Except.ok.inj h
    rfl

/-! ### Concrete data for witnesses and counterexamples -/

/-- A one-column row. -/
def mkRow (q : ℚ) : List (String × Cell) := [("score", .num q)]

/-- Ten distinct scores 1..10. -/
def df10 : DataFrame :=
  { cols := ["score"]
    rows := [mkRow 1, mkRow 2, mkRow 3, mkRow 4, mkRow 5,
             mkRow 6, mkRow 7, mkRow 8, mkRow 9, mkRow 10] }

/-- Ten identical scores 50. -/
def dfConst : DataFrame :=
  { cols := ["score"]
    rows := List.replicate 10 (mkRow 50) }

def fallbackBenchmark : Benchmark :=
  { metric_name := "", segment := [], sample_size := 0, percentile_25 := 0,
    percentile_50 := 0, percentile_75 := 0, percentile_90 := 0, mean := 0,
    sample_variance := 0, min_value := 0, max_value := 0, data_points := 0 }

/-- The benchmark stored for `df10`. -/
def bench10 : Benchmark :=
  match computeBenchmark df10 "score" [] with
  | .ok b => b
  | .error _ => fallbackBenchmark

/-- The benchmark stored for `dfConst`. -/
def benchConst : Benchmark :=
  match computeBenchmark dfConst "score" [] with
  | .ok b => b
  | .error _ => fallbackBenchmark

lemma bench10_min : bench10.min_value = 1 := by with_unfolding_all rfl
lemma bench10_p25 : bench10.percentile_25 = 13/4 := by with_unfolding_all rfl
lemma bench10_p50 : bench10.percentile_50 = 11/2 := by with_unfolding_all rfl
lemma bench10_p75 : bench10.percentile_75 = 31/4 := by with_unfolding_all rfl
lemma bench10_p90 : bench10.percentile_90 = 91/10 := by with_unfolding_all rfl
lemma bench10_max : bench10.max_value = 10 := by with_unfolding_all rfl

lemma rank_def (b : Benchmark) (v : ℚ) :
    (mkComparison b v).percentile_rank = pyRound2 (calcPercentileRank b v) := rfl

lemma pyRound2_zeroQ : pyRound2 0 = 0 := pyRound2_of_mul_int 0 0 (by norm_num)
lemma pyRound2_100Q : pyRound2 100 = 100 := pyRound2_of_mul_int 100 10000 (by norm_num)

/-! ## Claim theorems -/

/-- C1 (amended): for every stored benchmark, the percentile rank returned
by `compare_to_benchmark` is monotonically non-decreasing in the compared
value, lies in [0,100], and equals 0 for every value at or below the stored
`min_value`; it equals 100 for every value at or above the stored
`max_value` provided `percentile_90 < max_value` (in particular whenever
the six stored breakpoints are pairwise distinct).  When
`percentile_90 = max_value` — e.g. a benchmark built from constant data —
values at `max_value` fall into an earlier interpolation segment and the
rank at `max_value` is below 100. -/
theorem c1_percentile_rank_properties
    {st st' : Store} {df : DataFrame} {metric : String}
    {seg : List (String × String)} {b : Benchmark}
    (h : createBenchmark st df metric seg = .ok (b, st')) :
    (∀ v : ℚ, compareToBenchmark st' v metric seg = .ok (mkComparison b v)) ∧
    (∀ v w : ℚ, v ≤ w →
      (mkComparison b v).percentile_rank ≤ (mkComparison b w).percentile_rank) ∧
    (∀ v : ℚ, 0 ≤ (mkComparison b v).percentile_rank ∧
      (mkComparison b v).percentile_rank ≤ 100) ∧
    (∀ v : ℚ, v ≤ b.min_value → (mkComparison b v).percentile_rank = 0) ∧
    (b.percentile_90 < b.max_value →
      ∀ v : ℚ, b.max_value ≤ v → (mkComparison b v).percentile_rank = 100) := by
  have hwf : bwf b := computeBenchmark_wf (createBenchmark_compute h)
  refine ⟨createBenchmark_compare h, ?_, ?_, ?_, ?_⟩
  · intro v w hvw
    rw [rank_def, rank_def]
    exact pyRound2_mono (rank_mono hwf hvw)
  · intro v
    obtain ⟨h0, h100⟩ := rank_bounds hwf v
    rw [rank_def]
    constructor
    · rw [← pyRound2_zeroQ]; exact pyRound2_mono h0
    · rw [← pyRound2_100Q]; exact pyRound2_mono h100
  · intro v hv
    rw [rank_def, rank_eq_zero_of_le_min hwf hv, pyRound2_zeroQ]
  · intro hlt v hv
    rw [rank_def, rank_eq_100_of_ge_max hwf hlt hv, pyRound2_100Q]

/-- C1 witness: the theorem applied to the benchmark built from the ten
scores 1..10 (stored `min_value` 1, `max_value` 10, `percentile_90` 9.1). -/
theorem c1_percentile_rank_properties_witness :
    (mkComparison bench10 3).percentile_rank ≤ (mkComparison bench10 7).percentile_rank ∧
    (0 ≤ (mkComparison bench10 6).percentile_rank ∧
      (mkComparison bench10 6).percentile_rank ≤ 100) ∧
    (mkComparison bench10 1).percentile_rank = 0 ∧
    (mkComparison bench10 12).percentile_rank = 100 ∧
    compareToBenchmark [("score", bench10)] 6 "score" [] = .ok (mkComparison bench10 6) := by
  have H := c1_percentile_rank_properties
    (show createBenchmark [] df10 "score" [] = .ok (bench10, [("score", bench10)]) by
      with_unfolding_all rfl)
  refine ⟨H.2.1 3 7 (by norm_num), H.2.2.1 6, ?_, ?_, H.1 6⟩
  · exact H.2.2.2.1 1 (by rw [bench10_min])
  · exact H.2.2.2.2 (by rw [bench10_p90, bench10_max]; norm_num) 12
      (by rw [bench10_max]; norm_num)

/-- C1 counterexample: a benchmark created from ten identical scores has
`max_value` 50, yet the percentile rank of the value 50 (at `max_value`)
is 0, not 100 — refuting the rank-100-at-max clause of the claim as
stated. -/
theorem c1_counterexample :
    createBenchmark [] dfConst "score" [] = .ok (benchConst, [("score", benchConst)]) ∧
    benchConst.max_value = 50 ∧
    (mkComparison benchConst 50).percentile_rank = 0 ∧
    (mkComparison benchConst 50).percentile_rank ≠ 100 := by
  have h0 : (mkComparison benchConst 50).percentile_rank = 0 := by
    with_unfolding_all rfl
  refine ⟨by with_unfolding_all rfl, by with_unfolding_all rfl, h0, ?_⟩
  rw [h0]; norm_num

/-- C2: on a stored benchmark with pairwise-distinct breakpoints,
`compare_to_benchmark` at the stored p25/p50/p75/p90 values returns
percentile rank exactly 25/50/75/90 (interpolation is continuous at the
breakpoints), and the comparison at the stored median succeeds against the
stored benchmark. -/
theorem c2_breakpoint_ranks
    {st st' : Store} {df : DataFrame} {metric : String}
    {seg : List (String × String)} {b : Benchmark}
    (h : createBenchmark st df metric seg = .ok (b, st'))
    (hd : b.min_value < b.percentile_25 ∧ b.percentile_25 < b.percentile_50 ∧
          b.percentile_50 < b.percentile_75 ∧ b.percentile_75 < b.percentile_90 ∧
          b.percentile_90 < b.max_value) :
    compareToBenchmark st' b.percentile_50 metric seg =
      .ok (mkComparison b b.percentile_50) ∧
    (mkComparison b b.percentile_25).percentile_rank = 25 ∧
    (mkComparison b b.percentile_50).percentile_rank = 50 ∧
    (mkComparison b b.percentile_75).percentile_rank = 75 ∧
    (mkComparison b b.percentile_90).percentile_rank = 90 := by
  obtain ⟨d1, d2, d3, d4, d5⟩ := hd
  refine ⟨createBenchmark_compare h _, ?_, ?_, ?_, ?_⟩
  · rw [rank_def]
    have : calcPercentileRank b b.percentile_25 = 25 := by
      unfold calcPercentileRank
      rw [if_pos (le_refl _), if_neg (not_le.2 d1), mul_div_assoc,
        div_self (ne_of_gt (by linarith)), mul_one]
    rw [this]
    exact pyRound2_of_mul_int 25 2500 (by norm_num)
  · rw [rank_def]
    have : calcPercentileRank b b.percentile_50 = 50 := by
      unfold calcPercentileRank
      rw [if_neg (not_le.2 d2), if_pos (le_refl _), mul_div_assoc,
        div_self (ne_of_gt (by linarith)), mul_one]
      norm_num
    rw [this]
    exact pyRound2_of_mul_int 50 5000 (by norm_num)
  · rw [rank_def]
    have : calcPercentileRank b b.percentile_75 = 75 := by
      unfold calcPercentileRank
      rw [if_neg (not_le.2 (d2.trans d3)), if_neg (not_le.2 d3), if_pos (le_refl _),
        mul_div_assoc, div_self (ne_of_gt (by linarith)), mul_one]
      norm_num
    rw [this]
    exact pyRound2_of_mul_int 75 7500 (by norm_num)
  · rw [rank_def]
    have : calcPercentileRank b b.percentile_90 = 90 := by
      unfold calcPercentileRank
      rw [if_neg (not_le.2 ((d2.trans d3).trans d4)), if_neg (not_le.2 (d3.trans d4)),
        if_neg (not_le.2 d4), if_pos (le_refl _),
        mul_div_assoc, div_self (ne_of_gt (by linarith)), mul_one]
      norm_num
    rw [this]
    exact pyRound2_of_mul_int 90 9000 (by norm_num)

/-- C2 witness: the benchmark of the ten scores 1..10 has distinct
breakpoints 1 < 3.25 < 5.5 < 7.75 < 9.1 < 10; the ranks at the stored
breakpoints are exactly 25/50/75/90. -/
theorem c2_breakpoint_ranks_witness :
    (mkComparison bench10 bench10.percentile_25).percentile_rank = 25 ∧
    (mkComparison bench10 bench10.percentile_50).percentile_rank = 50 ∧
    (mkComparison bench10 bench10.percentile_75).percentile_rank = 75 ∧
    (mkComparison bench10 bench10.percentile_90).percentile_rank = 90 ∧
    compareToBenchmark [("score", bench10)] bench10.percentile_50 "score" [] =
      .ok (mkComparison bench10 bench10.percentile_50) := by
  have H := c2_breakpoint_ranks
    (show createBenchmark [] df10 "score" [] = .ok (bench10, [("score", bench10)]) by
      with_unfolding_all rfl)
    (by
      rw [bench10_min, bench10_p25, bench10_p50, bench10_p75, bench10_p90, bench10_max]
      norm_num)
  exact ⟨H.2.1, H.2.2.1, H.2.2.2.1, H.2.2.2.2, H.1⟩

/-! ### C4: create_benchmark data thresholds -/

lemma metricValues_length_eq {rows : List (List (String × Cell))} {metric : String}
    (hnum : ∀ row ∈ rows, isNumOrNa (cellGet row metric) = true) :
    (metricValues rows metric).length = nonMissingCount rows metric := by
  induction rows with
  | nil => rfl
  | cons r rs ih =>
    have hr := hnum r (List.mem_cons_self r rs)
    have hrs := fun row hrow => hnum row (List.mem_cons_of_mem r hrow)
    unfold metricValues nonMissingCount at *
    rw [List.filterMap_cons, List.filter_cons]
    cases hcell : cellGet r metric with
    | num q => simp [hcell, ih hrs]
    | str s => rw [hcell] at hr; simp [isNumOrNa] at hr
    | na => simp [hcell, ih hrs]

/-- C4: with the target metric a (numeric) column of the dataset,
`create_benchmark` fails with the no-data error on an empty
segment-filtered sample, fails with the insufficient-data error when the
nonempty filtered sample has fewer than 10 non-missing metric values, and
on at least 10 non-missing values succeeds with the stored `sample_size`
equal to the count of non-missing values in the filtered sample. -/
theorem c4_create_benchmark_thresholds
    {df : DataFrame} {metric : String} {seg : List (String × String)} (st : Store)
    (hcol : df.cols.contains metric = true)
    (hnum : numericColumn df metric) :
    (filterSegment df seg = [] → createBenchmark st df metric seg = .error .noData) ∧
    (filterSegment df seg ≠ [] →
      nonMissingCount (filterSegment df seg) metric < 10 →
      createBenchmark st df metric seg = .error .insufficientData) ∧
    (10 ≤ nonMissingCount (filterSegment df seg) metric →
      ∃ b st', createBenchmark st df metric seg = .ok (b, st') ∧
        b.sample_size = nonMissingCount (filterSegment df seg) metric) := by
  have hsub : ∀ row ∈ filterSegment df seg, isNumOrNa (cellGet row metric) = true :=
    fun row hrow => hnum row (List.mem_of_mem_filter hrow)
  have hcount : (metricValues (filterSegment df seg) metric).length
      = nonMissingCount (filterSegment df seg) metric := metricValues_length_eq hsub
  have hmem : metric ∈ df.cols := by simpa using hcol
  refine ⟨?_, ?_, ?_⟩
  · intro hempty
    simp [createBenchmark, computeBenchmark, hempty]
  · intro hne hlt
    have hlen0 : ¬ (filterSegment df seg).length = 0 := by
      simpa [List.length_eq_zero] using hne
    have hlt' : (metricValues (filterSegment df seg) metric).length < 10 := by omega
    simp [createBenchmark, computeBenchmark, hlen0, hmem, hlt']
  · intro hge
    have hne : filterSegment df seg ≠ [] := by
      intro hnil
      rw [hnil] at hge
      simp [nonMissingCount] at hge
    have hlen0 : ¬ (filterSegment df seg).length = 0 := by
      simpa [List.length_eq_zero] using hne
    have hnot : ¬ (metricValues (filterSegment df seg) metric).length < 10 := by omega
    obtain ⟨b, hb⟩ : ∃ b, computeBenchmark df metric seg = .ok b := by
      simp only [computeBenchmark]
      rw [if_neg hlen0, if_neg (by simp [hmem]), if_neg hnot]
      exact ⟨_, rfl⟩
    refine ⟨b, (getBenchmarkKey metric seg, b) :: st, ?_, ?_⟩
    · unfold createBenchmark
      rw [hb]
    · rw [(computeBenchmark_ok hb).2.2.2.2.2.2.2, hcount]

/-- Five distinct scores 1..5 (too few for a benchmark). -/
def df5 : DataFrame :=
  { cols := ["score"]
    rows := [mkRow 1, mkRow 2, mkRow 3, mkRow 4, mkRow 5] }

/-- C4 witness: on the five-row dataset `create_benchmark` fails with the
insufficient-data error; on the ten-row dataset it succeeds and stores
`sample_size` 10. -/
theorem c4_create_benchmark_thresholds_witness :
    createBenchmark [] df5 "score" [] = .error .insufficientData ∧
    (∃ b st', createBenchmark [] df10 "score" [] = .ok (b, st') ∧
      b.sample_size = nonMissingCount (filterSegment df10 []) "score") := by
  constructor
  · exact (@c4_create_benchmark_thresholds df5 "score" [] [] (by decide)
      (by decide)).2.1 (by decide) (by decide)
  · exact (@c4_create_benchmark_thresholds df10 "score" [] [] (by decide)
      (by decide)).2.2 (by decide)

/-! ### C10: benchmark keys ignore segment order -/

/-- C10: the canonical benchmark key is independent of the order of the
segment key/value pairs, so a benchmark created under one ordering is
found — as the same stored benchmark — by `get_benchmark` and
`compare_to_benchmark` under any reordering. -/
theorem c10_segment_order_irrelevant
    {seg1 seg2 : List (String × String)} (metric : String)
    (hperm : List.Perm seg1 seg2) :
    getBenchmarkKey metric seg1 = getBenchmarkKey metric seg2 ∧
    ∀ (st : Store) (df : DataFrame) (b : Benchmark) (st' : Store),
      createBenchmark st df metric seg1 = .ok (b, st') →
      getBenchmark st' metric seg2 = some b ∧
      ∀ v, compareToBenchmark st' v metric seg2 = .ok (mkComparison b v) := by
  have hkey : getBenchmarkKey metric seg1 = getBenchmarkKey metric seg2 := by
    cases h1 : seg1 with
    | nil =>
      rw [h1] at hperm
      rw [List.Perm.nil_eq hperm]
    | cons a t =>
      cases h2 : seg2 with
      | nil =>
        rw [h1, h2] at hperm
        exact absurd hperm.length_eq (by simp)
      | cons a2 t2 =>
        rw [h1, h2] at hperm
        have hsorteq : (a :: t).insertionSort segItemLE
            = (a2 :: t2).insertionSort segItemLE :=
          List.eq_of_perm_of_sorted
            ((List.perm_insertionSort _ _).trans
              (hperm.trans (List.perm_insertionSort _ _).symm))
            (List.sorted_insertionSort _ _) (List.sorted_insertionSort _ _)
        simp only [getBenchmarkKey, hsorteq]
  refine ⟨hkey, ?_⟩
  intro st df b st' h
  unfold createBenchmark at h
  cases hc : computeBenchmark df metric seg1 with
  | error e => rw [hc] at h; exact absurd h (by simp)
  | ok b' =>
    rw [hc] at h
    obtain ⟨rfl, rfl⟩ := Prod.mk.injEq .. ▸ Except.ok.inj h
    constructor
    · unfold getBenchmark
      rw [← hkey]
      simp [List.lookup]
    · intro v
      unfold compareToBenchmark
      rw [← hkey]
      simp [List.lookup]

/-- Ten rows with a numeric score and two categorical segment columns. -/
def dfSeg : DataFrame :=
  { cols := ["score", "role", "dept"]
    rows := (List.range 10).map fun i =>
      [("score", .num (i + 1 : ℕ)), ("role", .str "eng"), ("dept", .str "x")] }

def segRoleDept : List (String × String) := [("role", "eng"), ("dept", "x")]
def segDeptRole : List (String × String) := [("dept", "x"), ("role", "eng")]

/-- The benchmark stored for `dfSeg` under `segRoleDept`. -/
def benchSeg : Benchmark :=
  match computeBenchmark dfSeg "score" segRoleDept with
  | .ok b => b
  | .error _ => fallbackBenchmark

/-- C10 witness: a benchmark created under `role, dept` order is resolved
by lookups that present the segment in `dept, role` order. -/
theorem c10_segment_order_irrelevant_witness :
    getBenchmarkKey "score" segRoleDept = getBenchmarkKey "score" segDeptRole ∧
    getBenchmark [(getBenchmarkKey "score" segRoleDept, benchSeg)] "score" segDeptRole
      = some benchSeg ∧
    compareToBenchmark [(getBenchmarkKey "score" segRoleDept, benchSeg)] 5 "score"
      segDeptRole = .ok (mkComparison benchSeg 5) := by
  have H := @c10_segment_order_irrelevant segRoleDept segDeptRole "score" (by decide)
  have hcreate : createBenchmark [] dfSeg "score" segRoleDept
      = .ok (benchSeg, [(getBenchmarkKey "score" segRoleDept, benchSeg)]) := by
    with_unfolding_all rfl
  obtain ⟨hlookup, hcompare⟩ := H.2 [] dfSeg benchSeg _ hcreate
  exact ⟨H.1, hlookup, hcompare 5⟩

/-! ### C5 / C6: anomaly classification and severity escalation -/

lemma assessSeverity_of_burnout {types : List String} (h : "BURNOUT" ∈ types)
    (score : ℚ) : assessSeverity score types = "CRITICAL" := by
  unfold assessSeverity
  rw [if_pos (List.any_eq_true.2 ⟨"BURNOUT", h, by decide⟩)]

lemma classify_burnout_mem {m : List (String × ℚ)} {f : ADFeatures}
    (hb : burnoutCond f) : "BURNOUT" ∈ classifyAnomalyType m f := by
  simp only [classifyAnomalyType]
  rw [if_pos hb]
  rw [if_neg (by simp)]
  simp

lemma ite_nil_ne_nil (L : List String) :
    (if L = [] then ["GENERAL_ANOMALY"] else L) ≠ [] := by
  split
  · simp
  · assumption

/-- C5: on any fitted detector, a metrics dictionary carrying
`hours_worked = 60`, `productivity_score = 30`, `sentiment_score = -0.5`
satisfies the BURNOUT predicate (hours > 55 ∧ productivity < 40 ∧
sentiment < -0.3); `detect` therefore tags BURNOUT and the severity is
force-escalated to CRITICAL regardless of the normalized score. -/
theorem c5_burnout_critical (d : ADState) (m : List (String × ℚ))
    (h1 : mget m "hours_worked" 40 = 60)
    (h2 : mget m "productivity_score" 50 = 30)
    (h3 : mget m "sentiment_score" 0 = -(1/2)) :
    "BURNOUT" ∈ (detect d m).anomaly_types ∧ (detect d m).severity = "CRITICAL" := by
  have hb : burnoutCond (extractFeaturesAD m) := by
    unfold burnoutCond extractFeaturesAD
    refine ⟨?_, ?_, ?_⟩
    · rw [h1]; norm_num
    · rw [h2]; norm_num
    · rw [h3]; norm_num
  have hmem := classify_burnout_mem (m := m) hb
  constructor
  · simpa only [detect] using hmem
  · simp only [detect]
    exact assessSeverity_of_burnout hmem _

/-- A fitted detector used to instantiate the detector theorems. -/
def adDemo : ADState :=
  { method := "isolation_forest"
    model := { scoreSamples := fun _ => 0, decisionFunction := fun _ => 0,
               predictFlag := fun _ => 1 }
    scalerT := id
    baselineMean := []
    baselineStd := [] }

def metricsBurnout : List (String × ℚ) :=
  [("hours_worked", 60), ("productivity_score", 30), ("sentiment_score", -(1/2))]

/-- C5 witness. -/
theorem c5_burnout_critical_witness :
    "BURNOUT" ∈ (detect adDemo metricsBurnout).anomaly_types ∧
    (detect adDemo metricsBurnout).severity = "CRITICAL" :=
  c5_burnout_critical adDemo metricsBurnout (by with_unfolding_all rfl)
    (by with_unfolding_all rfl) (by with_unfolding_all rfl)

/-- C6: `detect` never returns an empty anomaly-type list, and when none
of the seven rule predicates holds of the extracted feature set the list
is exactly `["GENERAL_ANOMALY"]`. -/
theorem c6_general_anomaly (d : ADState) (m : List (String × ℚ)) :
    (detect d m).anomaly_types ≠ [] ∧
    ((¬ burnoutCond (extractFeaturesAD m) ∧
      ¬ disengagementCond m (extractFeaturesAD m) ∧
      ¬ performanceDeclineCond m (extractFeaturesAD m) ∧
      ¬ overworkCond (extractFeaturesAD m) ∧
      ¬ qualityDeclineCond (extractFeaturesAD m) ∧
      ¬ socialWithdrawalCond m (extractFeaturesAD m) ∧
      ¬ negativeSentimentCond m (extractFeaturesAD m)) →
      (detect d m).anomaly_types = ["GENERAL_ANOMALY"]) := by
  constructor
  · show classifyAnomalyType m (extractFeaturesAD m) ≠ []
    simp only [classifyAnomalyType]
    exact ite_nil_ne_nil _
  · rintro ⟨n1, n2, n3, n4, n5, n6, n7⟩
    show classifyAnomalyType m (extractFeaturesAD m) = ["GENERAL_ANOMALY"]
    simp only [classifyAnomalyType]
    rw [if_neg n1, if_neg n2, if_neg n3, if_neg n4, if_neg n5, if_neg n6, if_neg n7]
    simp

/-- C6 witness: the all-defaults feature set (empty metrics dictionary)
fires no rule, so the tag list is the catch-all singleton. -/
theorem c6_general_anomaly_witness :
    (detect adDemo []).anomaly_types ≠ [] ∧
    (detect adDemo []).anomaly_types = ["GENERAL_ANOMALY"] := by
  have H := c6_general_anomaly adDemo []
  refine ⟨H.1, H.2 ?_⟩
  with_unfolding_all decide

/-! ### C8: full-marks engagement -/

/-- C8: whenever all five engagement component scores evaluate to 100, the
scorer with the default weights (0.25/0.20/0.20/0.20/0.15) returns
`overall_score = 100` (the weighted sum of the components) and
`score_level = "VERY_HIGH"`. -/
theorem c8_full_engagement (m : List (String × ℚ))
    (h1 : scoreParticipation m = 100) (h2 : scoreCommunication m = 100)
    (h3 : scoreCollaboration m = 100) (h4 : scoreInitiative m = 100)
    (h5 : scoreResponsiveness m = 100) :
    (calculateScore defaultWeights m).overall_score = 100 ∧
    (calculateScore defaultWeights m).score_level = "VERY_HIGH" := by
  have hsum : scoreParticipation m * defaultWeights.participation
      + scoreCommunication m * defaultWeights.communication
      + scoreCollaboration m * defaultWeights.collaboration
      + scoreInitiative m * defaultWeights.initiative
      + scoreResponsiveness m * defaultWeights.responsiveness = 100 := by
    rw [h1, h2, h3, h4, h5]
    norm_num [defaultWeights]
  constructor
  · show pyRound2 _ = 100
    rw [hsum]
    exact pyRound2_100Q
  · show getScoreLevel _ = "VERY_HIGH"
    rw [hsum]
    unfold getScoreLevel
    rw [if_pos (by norm_num)]

/-- A metrics dictionary on which each of the five component scores is
exactly 100. -/
def metricsFull : List (String × ℚ) :=
  [("meetings_attended", 10), ("total_meetings", 10),
   ("meeting_participation_rate", 1), ("forum_posts", 10),
   ("events_attended", 5), ("surveys_completed", 10), ("total_surveys", 10),
   ("messages_sent", 75), ("responses_to_mentions", 10), ("total_mentions", 10),
   ("communication_clarity", 1), ("reactions_given", 20),
   ("code_reviews_given", 10), ("pair_programming_sessions", 5),
   ("knowledge_contributions", 3), ("cross_team_collaborations", 5),
   ("mentoring_sessions", 3),
   ("self_initiated_tasks", 3), ("improvements_suggested", 2),
   ("voluntary_contributions", 3), ("proactive_problem_solving", 3),
   ("learning_activities", 2),
   ("avg_response_time_hours", 1), ("response_rate", 1),
   ("availability_percentage", 1), ("acknowledgment_rate", 1)]

/-- C8 witness. -/
theorem c8_full_engagement_witness :
    (calculateScore defaultWeights metricsFull).overall_score = 100 ∧
    (calculateScore defaultWeights metricsFull).score_level = "VERY_HIGH" :=
  c8_full_engagement metricsFull (by with_unfolding_all rfl)
    (by with_unfolding_all rfl) (by with_unfolding_all rfl)
    (by with_unfolding_all rfl) (by with_unfolding_all rfl)

/-! ### C9: loading persisted bundles never validates the method tag -/

/-- C9 (amended): neither loader validates or rejects anything.
`AnomalyDetector.load_model` always succeeds and silently adopts every
bundle field — including the bundle's method tag, which overwrites the
detector's configured family; `ProductivityPredictor` bundles carry no
model-type tag at all, and its `load_model` leaves the configured
`model_type` untouched while adopting the bundle's model and scaler. -/
theorem c9_load_adopts_tag (d : ADState) (bundle : ADBundle)
    (p : PPState) (pb : PPBundle) :
    (adLoadModel d bundle).method = bundle.method ∧
    (adLoadModel d bundle).model = bundle.model ∧
    (adLoadModel d bundle).baselineMean = bundle.baselineMean ∧
    (ppLoadModel p pb).model_type = p.model_type ∧
    (ppLoadModel p pb).model = some pb.model ∧
    (ppLoadModel p pb).feature_names = pb.feature_names :=
  ⟨rfl, rfl, rfl, rfl, rfl, rfl⟩

/-- A persisted bundle tagged with a different method family. -/
def bundleLof : ADBundle :=
  { model := adDemo.model, scalerT := id, baselineMean := [], baselineStd := []
    method := "lof" }

/-- C9 counterexample: loading a bundle whose method tag ("lof") differs
from the detector's configured family ("isolation_forest") is not
rejected; the detector silently adopts the bundle's family. -/
theorem c9_counterexample :
    adDemo.method = "isolation_forest" ∧
    (adLoadModel adDemo bundleLof).method = "lof" ∧
    (adLoadModel adDemo bundleLof).method ≠ adDemo.method := by
  refine ⟨rfl, rfl, ?_⟩
  decide

/-! ### C3: predict before train -/

/-- C3 (code bug): the not-trained guard in `predict` tests
`self.model is None`, but the constructor already assigns a model object
for every recognized model type, so a default (`random_forest`, likewise
`gradient_boosting`) predictor that was never trained slips past the
guard and fails later with scikit-learn's `NotFittedError` from the
unfitted scaler — not with the `ValueError("Model not trained. Call
train() first.")` the spec (and the guard's own message) promise.  Only a
predictor constructed with an unrecognized model type (e.g. "lstm", whose
model stays `None`) raises the not-trained error. -/
theorem c3_predict_before_train (feats : List (String × ℚ)) :
    ppPredict (ppInit "random_forest") feats = .error .notFitted ∧
    ppPredict (ppInit "random_forest") feats ≠ .error .notTrained ∧
    ppPredict (ppInit "gradient_boosting") feats = .error .notFitted ∧
    ppPredict (ppInit "lstm") feats = .error .notTrained := by
  have h1 : ppPredict (ppInit "random_forest") feats = .error .notFitted := by
    simp [ppPredict, ppInit]
  refine ⟨h1, ?_, ?_, ?_⟩
  · rw [h1]; simp
  · simp [ppPredict, ppInit]
  · simp [ppPredict, ppInit]

/-! ### C7: ensemble confidence intervals -/

lemma pyRound2R_of_mul_int (x : ℝ) (m : ℤ) (h : x * 100 = (m : ℝ)) :
    pyRound2R x = x := by
  unfold pyRound2R
  rw [h, round_intCast, ← h]
  field_simp

/-- C7: on a trained predictor, when the fitted model exposes
sub-estimators (`estimators_`), `predict` returns the confidence interval
`point ± 1.96·std` over the sub-estimator predictions and confidence
`1 − min(std/point, 1)` for a positive point estimate (0.5 otherwise);
when the model has no sub-estimators it returns the fixed band
`[0.9·point, 1.1·point]` and confidence 0.75 (all rounded to two decimals
on return, as in the source). -/
theorem c7_confidence_interval (p : PPState) (feats : List (String × ℚ))
    (t : List ℚ → List ℝ) (f : FittedReg)
    (hs : p.scaler = some t) (hm : p.model = some (some f)) :
    (∀ ests, f.estimators = some ests →
      ∃ r, ppPredict p feats = .ok r ∧
        r.predicted_score = pyRound2R (f.predictFn (t (extractFeaturesPP feats))) ∧
        r.confidence_interval.lower = pyRound2R (f.predictFn (t (extractFeaturesPP feats))
          - 1.96 * npStd (ests.map fun est => est (t (extractFeaturesPP feats)))) ∧
        r.confidence_interval.upper = pyRound2R (f.predictFn (t (extractFeaturesPP feats))
          + 1.96 * npStd (ests.map fun est => est (t (extractFeaturesPP feats)))) ∧
        r.confidence = pyRound2R
          (if f.predictFn (t (extractFeaturesPP feats)) > 0 then
            1 - min (npStd (ests.map fun est => est (t (extractFeaturesPP feats)))
              / f.predictFn (t (extractFeaturesPP feats))) 1
          else 1/2)) ∧
    (f.estimators = none →
      ∃ r, ppPredict p feats = .ok r ∧
        r.predicted_score = pyRound2R (f.predictFn (t (extractFeaturesPP feats))) ∧
        r.confidence_interval.lower
          = pyRound2R (f.predictFn (t (extractFeaturesPP feats)) * (9/10)) ∧
        r.confidence_interval.upper
          = pyRound2R (f.predictFn (t (extractFeaturesPP feats)) * (11/10)) ∧
        r.confidence = pyRound2R (3/4)) := by
  constructor
  · intro ests hests
    have hok : ppPredict p feats = .ok
        { predicted_score := pyRound2R (f.predictFn (t (extractFeaturesPP feats)))
          confidence := pyRound2R
            (if f.predictFn (t (extractFeaturesPP feats)) > 0 then
              1 - min (npStd (ests.map fun est => est (t (extractFeaturesPP feats)))
                / f.predictFn (t (extractFeaturesPP feats))) 1
            else 1/2)
          confidence_interval :=
            ⟨pyRound2R (f.predictFn (t (extractFeaturesPP feats))
                - 1.96 * npStd (ests.map fun est => est (t (extractFeaturesPP feats)))),
             pyRound2R (f.predictFn (t (extractFeaturesPP feats))
                + 1.96 * npStd (ests.map fun est => est (t (extractFeaturesPP feats))))⟩
          feature_importance := p.feature_importance
          positive_factors := (identifyFactors feats).1
          negative_factors := (identifyFactors feats).2
          recommendations :=
            genRecommendationsPP feats (f.predictFn (t (extractFeaturesPP feats))) } := by
      simp only [ppPredict, hm, hs, hests]
    exact ⟨_, hok, rfl, rfl, rfl, rfl⟩
  · intro hests
    have hok : ppPredict p feats = .ok
        { predicted_score := pyRound2R (f.predictFn (t (extractFeaturesPP feats)))
          confidence := pyRound2R (3/4)
          confidence_interval :=
            ⟨pyRound2R (f.predictFn (t (extractFeaturesPP feats)) * (9/10)),
             pyRound2R (f.predictFn (t (extractFeaturesPP feats)) * (11/10))⟩
          feature_importance := p.feature_importance
          positive_factors := (identifyFactors feats).1
          negative_factors := (identifyFactors feats).2
          recommendations :=
            genRecommendationsPP feats (f.predictFn (t (extractFeaturesPP feats))) } := by
      simp only [ppPredict, hm, hs, hests]
    exact ⟨_, hok, rfl, rfl, rfl, rfl⟩

/-- A fitted ensemble regressor whose two sub-estimators agree. -/
def regEns : FittedReg :=
  { predictFn := fun _ => 50, estimators := some [fun _ => 50, fun _ => 50] }

/-- A fitted non-ensemble regressor. -/
def regPlain : FittedReg := { predictFn := fun _ => 50, estimators := none }

def ppDemoEns : PPState :=
  { model_type := "random_forest", scaler := some fun _ => [],
    model := some (some regEns), feature_names := [], feature_importance := [] }

def ppDemoPlain : PPState :=
  { model_type := "random_forest", scaler := some fun _ => [],
    model := some (some regPlain), feature_names := [], feature_importance := [] }

lemma npStd_pair_50 : npStd [(50 : ℝ), 50] = 0 := by
  unfold npStd
  norm_num [List.sum_cons]

/-- C7 witness: two agreeing sub-estimators give std 0, interval
[50, 50], confidence 1; the non-ensemble model gives [45, 55] and 0.75. -/
theorem c7_confidence_interval_witness :
    (∃ r, ppPredict ppDemoEns [] = .ok r ∧
      r.confidence_interval.lower = 50 ∧ r.confidence_interval.upper = 50 ∧
      r.confidence = 1) ∧
    (∃ r, ppPredict ppDemoPlain [] = .ok r ∧
      r.confidence_interval.lower = 45 ∧ r.confidence_interval.upper = 55 ∧
      r.confidence = 3/4) := by
  constructor
  · obtain ⟨r, hr, hps, hlo, hhi, hconf⟩ :=
      (c7_confidence_interval ppDemoEns [] _ regEns rfl rfl).1
        [fun _ => 50, fun _ => 50] rfl
    have hfn : regEns.predictFn ([] : List ℝ) = 50 := rfl
    have hmap : List.map (fun est => est ([] : List ℝ))
        [fun _ => (50 : ℝ), fun _ => 50] = [50, 50] := rfl
    rw [hfn, hmap, npStd_pair_50] at hlo hhi hconf
    rw [show (50 : ℝ) - 1.96 * 0 = 50 by ring] at hlo
    rw [show (50 : ℝ) + 1.96 * 0 = 50 by ring] at hhi
    rw [if_pos (by norm_num : (50 : ℝ) > 0), show (0 : ℝ) / 50 = 0 by ring,
      min_eq_left (by norm_num : (0 : ℝ) ≤ 1), show (1 : ℝ) - 0 = 1 by ring] at hconf
    refine ⟨r, hr, ?_, ?_, ?_⟩
    · rw [hlo]; exact pyRound2R_of_mul_int 50 5000 (by norm_num)
    · rw [hhi]; exact pyRound2R_of_mul_int 50 5000 (by norm_num)
    · rw [hconf]; exact pyRound2R_of_mul_int 1 100 (by norm_num)
  · obtain ⟨r, hr, hps, hlo, hhi, hconf⟩ :=
      (c7_confidence_interval ppDemoPlain [] _ regPlain rfl rfl).2 rfl
    have hfn : regPlain.predictFn ([] : List ℝ) = 50 := rfl
    rw [hfn, show (50 : ℝ) * (9/10) = 45 by norm_num] at hlo
    rw [hfn, show (50 : ℝ) * (11/10) = 55 by norm_num] at hhi
    refine ⟨r, hr, ?_, ?_, ?_⟩
    · rw [hlo]; exact pyRound2R_of_mul_int 45 4500 (by norm_num)
    · rw [hhi]; exact pyRound2R_of_mul_int 55 5500 (by norm_num)
    · rw [hconf]; exact pyRound2R_of_mul_int (3/4) 75 (by norm_num)

end PMS
